import Mathlib

/- Verification development for the Nyztrade-GEX-Pro core
   (src/gex_calculator.py, src/streamlit_app.py).

   Shallow embedding conventions:
   * The Black-Scholes pricing kernel (class BlackScholesCalculator) works with
     transcendental functions, so it is embedded over ℝ; scipy.stats.norm.pdf and
     norm.cdf are the standard Gaussian density and the cumulative distribution
     function of the standard Gaussian measure.
   * All other numeric code (price resolution, exposure pipeline, flow metrics,
     flip-zone detection, snapshot store) is embedded over ℚ, modelling Python
     float arithmetic exactly; the `try/except` bodies of the kernel are total
     over ℝ/ℚ, so the dead `except` branches do not appear.
-/

namespace NyzGex

/-- scipy.stats.norm.pdf: density of the standard normal distribution. -/
noncomputable def norm_pdf (x : ℝ) : ℝ :=
  Real.exp (-(x ^ 2) / 2) / Real.sqrt (2 * Real.pi)

/-- scipy.stats.norm.cdf: cumulative distribution function of the standard
normal distribution, i.e. the CDF of the Gaussian measure with mean 0 and
variance 1. -/
noncomputable def norm_cdf (x : ℝ) : ℝ :=
  ProbabilityTheory.cdf (ProbabilityTheory.gaussianReal 0 1) x

/-- `BlackScholesCalculator.calculate_d1` (gex_calculator.py:1077-1086).
Returns 0 on degenerate inputs, else the standard log-moneyness parameter. -/
noncomputable def calculate_d1 (S K T r sigma : ℝ) : ℝ :=
  if T ≤ 0 ∨ sigma ≤ 0 ∨ S ≤ 0 ∨ K ≤ 0 then 0
  else (Real.log (S / K) + (r + 0.5 * sigma ^ 2) * T) / (sigma * Real.sqrt T)

/-- `BlackScholesCalculator.calculate_d2` (gex_calculator.py:1088-1098).
Note: the source guards only on `T <= 0 or sigma <= 0` here. -/
noncomputable def calculate_d2 (S K T r sigma : ℝ) : ℝ :=
  if T ≤ 0 ∨ sigma ≤ 0 then 0
  else calculate_d1 S K T r sigma - sigma * Real.sqrt T

/-- `BlackScholesCalculator.calculate_gamma` (gex_calculator.py:1100-1111). -/
noncomputable def calculate_gamma (S K T r sigma : ℝ) : ℝ :=
  if T ≤ 0 ∨ sigma ≤ 0 ∨ S ≤ 0 ∨ K ≤ 0 then 0
  else norm_pdf (calculate_d1 S K T r sigma) / (S * sigma * Real.sqrt T)

/-- `BlackScholesCalculator.calculate_call_delta` (gex_calculator.py:1113-1122). -/
noncomputable def calculate_call_delta (S K T r sigma : ℝ) : ℝ :=
  if T ≤ 0 ∨ sigma ≤ 0 ∨ S ≤ 0 ∨ K ≤ 0 then 0
  else norm_cdf (calculate_d1 S K T r sigma)

/-- `BlackScholesCalculator.calculate_put_delta` (gex_calculator.py:1124-1133). -/
noncomputable def calculate_put_delta (S K T r sigma : ℝ) : ℝ :=
  if T ≤ 0 ∨ sigma ≤ 0 ∨ S ≤ 0 ∨ K ≤ 0 then 0
  else norm_cdf (calculate_d1 S K T r sigma) - 1

/-- `BlackScholesCalculator.calculate_vega` (gex_calculator.py:1135-1145). -/
noncomputable def calculate_vega (S K T r sigma : ℝ) : ℝ :=
  if T ≤ 0 ∨ sigma ≤ 0 ∨ S ≤ 0 ∨ K ≤ 0 then 0
  else S * norm_pdf (calculate_d1 S K T r sigma) * Real.sqrt T / 100

/-- Python truthiness of an optional number (`if price:`): `None` and `0` are
falsy, every other number is truthy. -/
def truthy : Option ℚ → Bool
  | none => false
  | some q => q != 0

/-- Python `str.upper()` (character-wise upper-casing). -/
def py_upper (s : String) : String :=
  String.mk (s.data.map Char.toUpper)

/-- The `ranges` dictionary of `GrowwFuturesFetcher._validate_price`
(gex_calculator.py:1305-1314), including the `(5000, 100000)` default for
unknown symbols; the lookup key is `symbol.upper()`. -/
def price_band (symbol : String) : ℚ × ℚ :=
  if py_upper symbol = "NIFTY" then (20000, 30000)
  else if py_upper symbol = "BANKNIFTY" then (45000, 60000)
  else if py_upper symbol = "FINNIFTY" then (20000, 28000)
  else if py_upper symbol = "MIDCPNIFTY" then (10000, 16000)
  else (5000, 100000)

/-- `GrowwFuturesFetcher._validate_price`: `min_p < price < max_p`. -/
def validate_price (symbol : String) (price : ℚ) : Bool :=
  decide ((price_band symbol).1 < price ∧ price < (price_band symbol).2)

/-- `GrowwFuturesFetcher.symbol_map` (gex_calculator.py:1168-1173), projected
to the `'groww'` entry used by `get_futures_price`. -/
def symbol_map_groww (symbol : String) : Option String :=
  if symbol = "NIFTY" then some "NIFTY"
  else if symbol = "BANKNIFTY" then some "BANKNIFTY"
  else if symbol = "FINNIFTY" then some "FINNIFTY"
  else if symbol = "MIDCPNIFTY" then some "MIDCPNIFTY"
  else none

/-- `self.symbol_map.get(symbol, {}).get('groww', symbol)`
(gex_calculator.py:1187). -/
def groww_symbol_of (symbol : String) : String :=
  (symbol_map_groww symbol).getD symbol

/-- Environment for one run of `GrowwFuturesFetcher.get_futures_price`: the
outcome of each network fetch, abstracted to what the source extracts from it.
`derivatives_api` and `contract_api` are the price parsed out of the
respective JSON responses (`none` when the request failed, no response shape
matched, or an exception occurred) — note that the source applies no band
validation in `_fetch_from_derivatives_api` (1206-1247) or
`_fetch_from_contract_api` (1280-1303): whatever float they parse is returned
as-is.  `page_candidates` is the ordered list of numeric regex matches
extracted from the futures page by `_fetch_from_futures_page` (1249-1278)
(`none` when the page request itself failed or raised). -/
structure GrowwEnv where
  derivatives_api : Option ℚ
  page_candidates : Option (List ℚ)
  contract_api : Option ℚ

/-- `GrowwFuturesFetcher._fetch_from_futures_page` (1249-1278): scan the regex
matches in order and return the first candidate passing `_validate_price`. -/
def fetch_from_futures_page (symbol : String) (cands : Option (List ℚ)) :
    Option ℚ :=
  match cands with
  | none => none
  | some l => l.find? (fun p => validate_price symbol p)

/-- `GrowwFuturesFetcher.get_futures_price` (1175-1204): the three provider
strategies in order, first truthy result wins, with its source label. -/
def get_futures_price (env : GrowwEnv) (symbol : String) : Option ℚ × String :=
  if truthy env.derivatives_api then (env.derivatives_api, "Groww API")
  else if truthy (fetch_from_futures_page (groww_symbol_of symbol)
      env.page_candidates) then
    (fetch_from_futures_page (groww_symbol_of symbol) env.page_candidates,
      "Groww Page")
  else if truthy env.contract_api then (env.contract_api, "Groww Contract")
  else (none, "Groww fetch failed")

/-- One leg (`CE` or `PE`) of an option-chain item: the fields the source
reads, each `none` when absent from the provider JSON. -/
structure LegData where
  openInterest : Option ℚ
  changeinOpenInterest : Option ℚ
  totalTradedVolume : Option ℚ
  impliedVolatility : Option ℚ
  lastPrice : Option ℚ

/-- One entry of `records['data']`; `ce`/`pe` are `none` when the `'CE'`/`'PE'`
key is absent (Python `item.get('CE', {})` then yields an empty, falsy dict). -/
structure ChainItem where
  expiryDate : String
  strikePrice : ℚ
  ce : Option LegData
  pe : Option LegData

/-- The `records` object of the NSE option-chain response
(the fields read by `fetch_and_calculate_gex_dex`). -/
structure ChainRecords where
  underlyingValue : ℚ
  timestamp : String
  expiryDates : List String
  data : List ChainItem

/-- The ATM scan of `_calculate_futures_from_pcp` (1645-1656): fold over the
chain keeping the first strike minimizing `abs(strike - spot)` among items of
the selected expiry, with its CE/PE dicts.  State: `(min_diff, strike, ce, pe)`;
`none` models the initial `min_diff = inf`, `atm_strike = None` state. -/
def pcp_fold (spot : ℚ) (expiry : String) (items : List ChainItem) :
    Option (ℚ × ℚ × Option LegData × Option LegData) :=
  items.foldl
    (fun acc item =>
      if item.expiryDate = expiry then
        let diff := |item.strikePrice - spot|
        match acc with
        | none => some (diff, item.strikePrice, item.ce, item.pe)
        | some best =>
          if diff < best.1 then some (diff, item.strikePrice, item.ce, item.pe)
          else acc
      else acc)
    none

/-- `EnhancedGEXDEXCalculator._calculate_futures_from_pcp` (1637-1669):
put-call parity `F = K + (C - P)` at the ATM strike, only when the truthiness
test `if atm_strike and ce_data and pe_data` passes and both legs' observed
last prices are positive. -/
def calculate_futures_from_pcp (records : ChainRecords) (spot : ℚ)
    (expiry : String) : Option ℚ :=
  match pcp_fold spot expiry records.data with
  | none => none
  | some (_, atm_strike, ce?, pe?) =>
    match ce?, pe? with
    | some ce, some pe =>
      if atm_strike = 0 then none
      else
        let call_price := ce.lastPrice.getD 0
        let put_price := pe.lastPrice.getD 0
        if 0 < call_price ∧ 0 < put_price then
          some (atm_strike + (call_price - put_price))
        else none
    | _, _ => none

/-- Reference-price resolution as inlined in `fetch_and_calculate_gex_dex`
(1479-1491): the Groww chain first, then put-call parity when it returned
`None`, then the cost-of-carry model `spot * e^(r*days/365)`.  `expQ`
abstracts `np.exp`, transcendental and therefore kept opaque over ℚ. -/
def resolve_futures (expQ : ℚ → ℚ) (env : GrowwEnv) (symbol : String)
    (records : ChainRecords) (spot : ℚ) (days : ℤ) (r : ℚ) (expiry : String) :
    ℚ × String :=
  let res := get_futures_price env symbol
  match res.1 with
  | some p => (p, res.2)
  | none =>
    match calculate_futures_from_pcp records spot expiry with
    | some f =>
      if f ≠ 0 then (f, "Put-Call Parity")
      else (spot * expQ (r * (days : ℚ) / 365), "Cost of Carry")
    | none => (spot * expQ (r * (days : ℚ) / 365), "Cost of Carry")

/-- Environment where the derivatives API returns an in-band NIFTY price. -/
def c3_env_api : GrowwEnv :=
  { derivatives_api := some 25000, page_candidates := some [],
    contract_api := none }

/-- Environment where only the page scrape yields a band-valid candidate. -/
def c3_env_page : GrowwEnv :=
  { derivatives_api := none, page_candidates := some [3, 24000],
    contract_api := none }

/-- Environment where only the contract API yields a (nonzero) price. -/
def c3_env_contract : GrowwEnv :=
  { derivatives_api := none, page_candidates := some [], contract_api := some 7 }

/-- Environment where every Groww strategy fails. -/
def c3_env_fail : GrowwEnv :=
  { derivatives_api := none, page_candidates := none, contract_api := some 0 }

/-- A chain with one ATM item suitable for put-call parity:
F = 24000 + (60 - 50) = 24010. -/
def c3_records_pcp : ChainRecords :=
  { underlyingValue := 24000, timestamp := "", expiryDates := ["30-Oct-2025"],
    data := [{ expiryDate := "30-Oct-2025", strikePrice := 24000,
               ce := some { openInterest := some 1, changeinOpenInterest := none,
                            totalTradedVolume := none, impliedVolatility := none,
                            lastPrice := some 60 },
               pe := some { openInterest := some 1, changeinOpenInterest := none,
                            totalTradedVolume := none, impliedVolatility := none,
                            lastPrice := some 50 } }] }

/-- An empty chain (no PCP candidates). -/
def c3_records_empty : ChainRecords :=
  { underlyingValue := 0, timestamp := "", expiryDates := [], data := [] }

/-- Environment where the derivatives API parses a price of 100 — far outside
the NIFTY band (20000, 30000). -/
def c4_env : GrowwEnv :=
  { derivatives_api := some 100, page_candidates := some [],
    contract_api := none }

/-- The (Strike, Net_GEX_B) view of one row of the exposure table, as read by
`detect_gamma_flip_zones`. -/
structure GexRow where
  strike : ℚ
  net_gex : ℚ

/-- One detected flip zone (gex_calculator.py:1971-1977). -/
structure FlipZone where
  lower_strike : ℚ
  upper_strike : ℚ
  flip_type : String
  gex_below : ℚ
  gex_above : ℚ

/-- The adjacent-pair scan of `detect_gamma_flip_zones`
(gex_calculator.py:1956-1977): a zone is emitted exactly when
`current_gex > 0 and next_gex < 0` or `current_gex < 0 and next_gex > 0`,
labeled by the sign of the lower value. -/
def flip_scan : List GexRow → List FlipZone
  | a :: b :: rest =>
    (if (0 < a.net_gex ∧ b.net_gex < 0) ∨ (a.net_gex < 0 ∧ 0 < b.net_gex) then
      [{ lower_strike := a.strike, upper_strike := b.strike,
         flip_type :=
           if 0 < a.net_gex then "DAMPENING → AMPLIFYING"
           else "AMPLIFYING → DAMPENING",
         gex_below := a.net_gex, gex_above := b.net_gex }]
     else []) ++ flip_scan (b :: rest)
  | _ => []

instance : DecidableRel (fun x y : GexRow => x.strike ≤ y.strike) :=
  fun _ _ => inferInstanceAs (Decidable (_ ≤ _))

/-- `detect_gamma_flip_zones` (gex_calculator.py:1947-1979):
`df.sort_values('Strike')` then the adjacent-pair scan. -/
def detect_gamma_flip_zones (df : List GexRow) : List FlipZone :=
  flip_scan (df.insertionSort (fun x y => x.strike ≤ y.strike))

/-- The expected per-pair emission: one zone for every adjacent pair of the
sorted table whose net-GEX values have strictly opposite signs (a value of
exactly 0 matches either neighbor and emits nothing). -/
def adjacent_flip_zones (l : List GexRow) : List FlipZone :=
  (l.zip l.tail).filterMap (fun p =>
    if (0 < p.1.net_gex ∧ p.2.net_gex < 0) ∨
        (p.1.net_gex < 0 ∧ 0 < p.2.net_gex) then
      some { lower_strike := p.1.strike, upper_strike := p.2.strike,
             flip_type :=
               if (0 : ℚ) < p.1.net_gex then "DAMPENING → AMPLIFYING"
               else "AMPLIFYING → DAMPENING",
             gex_below := p.1.net_gex, gex_above := p.2.net_gex }
    else none)

/-- `max_gex = df['Net_GEX_B'].abs().max()` (gex_calculator.py:1615, 1767),
folded with 0 as the base (pandas' `max()` of an empty column is NaN, and
`NaN > 0` is false, which coincides with the 0 base here). -/
def max_abs_gex (gex : List ℚ) : ℚ :=
  (gex.map (fun g => |g|)).foldr max 0

/-- `df['Hedging_Pressure'] = (df['Net_GEX_B'] / max_gex * 100) if max_gex > 0
else 0` (gex_calculator.py:1616, 1768). -/
def hedging_pressures (gex : List ℚ) : List ℚ :=
  if 0 < max_abs_gex gex then gex.map (fun g => g / max_abs_gex gex * 100)
  else gex.map (fun _ => 0)

/-- The columns of one exposure-table row read by
`calculate_dual_gex_dex_flow` (gex_calculator.py:1803-1940). -/
structure FlowRow where
  strike : ℚ
  net_gex : ℚ
  net_dex : ℚ
  call_oi : ℚ
  put_oi : ℚ

/-- `df.drop_duplicates(subset=['Strike'])` (1811): keep the first row for
each strike, in encounter order. -/
def dedup_by_strike (rows : List FlowRow) : List FlowRow :=
  rows.foldl
    (fun acc r =>
      if acc.any (fun x => decide (x.strike = r.strike)) then acc
      else acc ++ [r])
    []

instance : DecidableRel (fun x y : FlowRow => x.strike ≤ y.strike) :=
  fun _ _ => inferInstanceAs (Decidable (_ ≤ _))

/-- `df_unique = df.drop_duplicates(subset=['Strike']).sort_values('Strike')`
(1811). -/
def df_unique_rows (df : List FlowRow) : List FlowRow :=
  (dedup_by_strike df).insertionSort (fun x y => x.strike ≤ y.strike)

/-- `nsmallest(5, 'Dist')` with `Dist = abs(Strike - futures_ltp)`
(1816-1822): the 5 rows closest to the reference price (ties resolved by
order, as with pandas' keep='first'). -/
def nsmallest_by_dist (ltp : ℚ) (rows : List FlowRow) : List FlowRow :=
  (rows.insertionSort
    (fun x y => |x.strike - ltp| ≤ |y.strike - ltp|)).take 5

instance (ltp : ℚ) :
    DecidableRel (fun x y : FlowRow => |x.strike - ltp| ≤ |y.strike - ltp|) :=
  fun _ _ => inferInstanceAs (Decidable (_ ≤ _))

/-- `idxmax` followed by a `Strike` lookup (1845-1847): the strike of the
first row attaining the maximum of `f`, 0 for an empty table. -/
def argmax_strike (f : FlowRow → ℚ) (rows : List FlowRow) : ℚ :=
  match rows with
  | [] => 0
  | r :: rest =>
    (rest.foldl
      (fun best x => if best.2 < f x then (x.strike, f x) else best)
      (r.strike, f r)).1

/-- `get_gex_bias` (1860-1870), with its default `threshold=50`. -/
def get_gex_bias (val threshold : ℚ) : String × String :=
  if threshold < val then ("🟢 STRONG VOL DAMPENING", "#00d4aa")
  else if 0 < val then ("🟢 VOL DAMPENING", "#55efc4")
  else if val < -threshold then ("🔴 STRONG VOL AMPLIFYING", "#ff6b6b")
  else if val < 0 then ("🔴 VOL AMPLIFYING", "#fab1a0")
  else ("⚪ NEUTRAL", "#b2bec3")

/-- `get_dex_bias` (1872-1882), with its default `threshold=50`. -/
def get_dex_bias (val threshold : ℚ) : String × String :=
  if threshold < val then ("🟢 STRONG BULLISH", "#00d4aa")
  else if 0 < val then ("🟢 BULLISH", "#55efc4")
  else if val < -threshold then ("🔴 STRONG BEARISH", "#ff6b6b")
  else if val < 0 then ("🔴 BEARISH", "#fab1a0")
  else ("⚪ NEUTRAL", "#b2bec3")

/-- `get_combined_bias` (1884-1908); the locally computed mean is returned
separately as `combined_signal` by the caller. -/
def get_combined_bias (gex_val dex_val : ℚ) : String × String :=
  if 50 < gex_val then
    if 20 < dex_val then ("🟢 DAMPENING + BULLISH", "#00d4aa")
    else if dex_val < -20 then ("🟡 DAMPENING + BEARISH", "#ffeaa7")
    else ("🟢 VOL DAMPENING", "#55efc4")
  else if gex_val < -50 then
    if 20 < dex_val then ("⚡ AMPLIFYING + BULLISH", "#fd79a8")
    else if dex_val < -20 then ("🔴 AMPLIFYING + BEARISH", "#ff6b6b")
    else ("🔴 VOL AMPLIFYING", "#fab1a0")
  else
    if 30 < dex_val then ("🟢 BULLISH BIAS", "#55efc4")
    else if dex_val < -30 then ("🔴 BEARISH BIAS", "#fab1a0")
    else ("⚪ NEUTRAL", "#b2bec3")

/-- The dictionary returned by `calculate_dual_gex_dex_flow` (1914-1940). -/
structure FlowMetrics where
  gex_near_positive : ℚ
  gex_near_negative : ℚ
  gex_near_total : ℚ
  gex_total_positive : ℚ
  gex_total_negative : ℚ
  gex_total_all : ℚ
  gex_near_bias : String
  gex_near_color : String
  dex_near_positive : ℚ
  dex_near_negative : ℚ
  dex_near_total : ℚ
  dex_total_positive : ℚ
  dex_total_negative : ℚ
  dex_total_all : ℚ
  dex_near_bias : String
  dex_near_color : String
  combined_signal : ℚ
  combined_bias : String
  combined_color : String
  max_call_oi_strike : ℚ
  max_put_oi_strike : ℚ
  max_gex_strike : ℚ
  pcr : ℚ
  total_call_oi : ℚ
  total_put_oi : ℚ

/-- `calculate_dual_gex_dex_flow` (gex_calculator.py:1803-1940). -/
def calculate_dual_gex_dex_flow (df : List FlowRow) (futures_ltp : ℚ) :
    FlowMetrics :=
  let df_unique := df_unique_rows df
  let pos_gex := nsmallest_by_dist futures_ltp
    (df_unique.filter (fun r => decide (0 < r.net_gex)))
  let neg_gex := nsmallest_by_dist futures_ltp
    (df_unique.filter (fun r => decide (r.net_gex < 0)))
  let gex_near_pos := (pos_gex.map FlowRow.net_gex).sum
  let gex_near_neg := (neg_gex.map FlowRow.net_gex).sum
  let gex_near_total := gex_near_pos + gex_near_neg
  let gex_total_pos :=
    ((df_unique.filter (fun r => decide (0 < r.net_gex))).map
      FlowRow.net_gex).sum
  let gex_total_neg :=
    ((df_unique.filter (fun r => decide (r.net_gex < 0))).map
      FlowRow.net_gex).sum
  let above := (df_unique.filter
    (fun r => decide (futures_ltp < r.strike))).take 5
  let below :=
    let bl := df_unique.filter (fun r => decide (r.strike < futures_ltp))
    bl.drop (bl.length - 5)
  let dex_near_pos := (above.map FlowRow.net_dex).sum
  let dex_near_neg := (below.map FlowRow.net_dex).sum
  let dex_near_total := dex_near_pos + dex_near_neg
  let dex_total_pos :=
    ((df_unique.filter (fun r => decide (0 < r.net_dex))).map
      FlowRow.net_dex).sum
  let dex_total_neg :=
    ((df_unique.filter (fun r => decide (r.net_dex < 0))).map
      FlowRow.net_dex).sum
  let total_call_oi := (df_unique.map FlowRow.call_oi).sum
  let total_put_oi := (df_unique.map FlowRow.put_oi).sum
  { gex_near_positive := gex_near_pos
    gex_near_negative := gex_near_neg
    gex_near_total := gex_near_total
    gex_total_positive := gex_total_pos
    gex_total_negative := gex_total_neg
    gex_total_all := gex_total_pos + gex_total_neg
    gex_near_bias := (get_gex_bias gex_near_total 50).1
    gex_near_color := (get_gex_bias gex_near_total 50).2
    dex_near_positive := dex_near_pos
    dex_near_negative := dex_near_neg
    dex_near_total := dex_near_total
    dex_total_positive := dex_total_pos
    dex_total_negative := dex_total_neg
    dex_total_all := dex_total_pos + dex_total_neg
    dex_near_bias := (get_dex_bias dex_near_total 50).1
    dex_near_color := (get_dex_bias dex_near_total 50).2
    combined_signal := (gex_near_total + dex_near_total) / 2
    combined_bias := (get_combined_bias gex_near_total dex_near_total).1
    combined_color := (get_combined_bias gex_near_total dex_near_total).2
    max_call_oi_strike := argmax_strike FlowRow.call_oi df_unique
    max_put_oi_strike := argmax_strike FlowRow.put_oi df_unique
    max_gex_strike := argmax_strike (fun r => |r.net_gex|) df_unique
    pcr := if 0 < total_call_oi then total_put_oi / total_call_oi else 1
    total_call_oi := total_call_oi
    total_put_oi := total_put_oi }

/-- A one-row table with zero net GEX but nonzero net DEX above the
reference price. -/
def c9_df : List FlowRow :=
  [{ strike := 24000, net_gex := 0, net_dex := 10, call_oi := 1, put_oi := 1 }]

/-- Python dict lookup `d.get(k)`, over an insertion-ordered association
list (keys are unique by construction of `dict_set`/`dict_erase`). -/
def dict_get? {κ : Type} [DecidableEq κ] {α : Type} :
    List (κ × α) → κ → Option α
  | [], _ => none
  | p :: rest, k => if p.1 = k then some p.2 else dict_get? rest k

/-- Python dict assignment `d[k] = v`: overwrite the first (unique) occurrence
in place, or append a new entry at the end — insertion-order semantics. -/
def dict_set {κ : Type} [DecidableEq κ] {α : Type} :
    List (κ × α) → κ → α → List (κ × α)
  | [], k, v => [(k, v)]
  | p :: rest, k, v =>
    if p.1 = k then (k, v) :: rest else p :: dict_set rest k v

/-- Python `d.pop(k, None)`: remove the entry for `k`. -/
def dict_erase {κ : Type} [DecidableEq κ] {α : Type} (d : List (κ × α))
    (k : κ) : List (κ × α) :=
  d.filter (fun p => decide (p.1 ≠ k))

/-- One per-ConfigKey series: `{'times': [], 'data': {}}`
(streamlit_app.py:263).  Times are wall-clock instants in minutes (so that
`elapsed = (now - last).total_seconds() / 60` is plain subtraction). -/
structure Series (α : Type) where
  times : List ℚ
  data : List (ℚ × α)

/-- `get_config_key` (streamlit_app.py:236-238) formats
`f"{symbol}_{expiry_index}"`.  The underscore separator makes the format
injective in its two arguments for the underscore-free symbol set, so the key
is modelled as the pair itself. -/
def get_config_key (symbol : String) (expiry_index : ℤ) : String × ℤ :=
  (symbol, expiry_index)

/-- The session state read and written by `capture_snapshot`
(streamlit_app.py:247-291): the global debounce gate (`last_capture_time`,
`capture_interval`, `force_capture`) and the per-key series mapping
`snapshots_by_config`. -/
structure TMState (α : Type) where
  last_capture_time : Option ℚ
  capture_interval : ℚ
  force_capture : Bool
  snapshots_by_config : List ((String × ℤ) × Series α)

/-- The retention loop (streamlit_app.py:287-289):
`while len(times) > 500: oldest = times.pop(0); data.pop(oldest, None)`. -/
def evict_loop {α : Type} : List ℚ → List (ℚ × α) → List ℚ × List (ℚ × α)
  | [], d => ([], d)
  | t :: rest, d =>
    if 500 < (t :: rest).length then evict_loop rest (dict_erase d t)
    else (t :: rest, d)

instance : DecidableRel (fun a b : ℚ => a ≤ b) :=
  fun _ _ => inferInstanceAs (Decidable (_ ≤ _))

/-- The debounce gate of `capture_snapshot` (streamlit_app.py:253-255):
reject when a last capture time exists, the elapsed time is below the
interval, and the forced override is off. -/
def gate_rejects (last : Option ℚ) (now interval : ℚ) (force : Bool) :
    Bool :=
  match last with
  | some t => decide (now - t < interval) && !force
  | none => false

/-- `capture_snapshot` (streamlit_app.py:247-291), the keyed variant with the
force override.  `now` stands for `datetime.now(ist).replace(microsecond=0)`
in minutes; `snap` is the stored payload (the dict built at lines 268-276),
opaque to the store's logic.  Returns the accepted flag and the new state.
Note the debounce gate (lines 253-256) reads the single global
`last_capture_time`, not a per-key one. -/
def capture_snapshot (α : Type) (st : TMState α) (now : ℚ) (symbol : String)
    (expiry_index : ℤ) (snap : α) : Bool × TMState α :=
  if gate_rejects st.last_capture_time now st.capture_interval
      st.force_capture then (false, st)
  else
    let key := get_config_key symbol expiry_index
    let cfg := (dict_get? st.snapshots_by_config key).getD ⟨[], []⟩
    let data1 := dict_set cfg.data now snap
    let times1 :=
      if now ∈ cfg.times then cfg.times
      else (cfg.times ++ [now]).insertionSort (fun a b => a ≤ b)
    let ev := evict_loop times1 data1
    (true,
      { last_capture_time := some now
        capture_interval := st.capture_interval
        force_capture := false
        snapshots_by_config :=
          dict_set st.snapshots_by_config key ⟨ev.1, ev.2⟩ })

/-- Fold `capture_snapshot` over a list of `(now, snapshot)` pairs for one
key, conjoining the accepted flags. -/
def capture_many (α : Type) (symbol : String) (expiry_index : ℤ)
    (snaps : List (ℚ × α)) (st : TMState α) : Bool × TMState α :=
  snaps.foldl
    (fun acc p =>
      ((capture_snapshot α acc.2 p.1 symbol expiry_index p.2).1 && acc.1,
        (capture_snapshot α acc.2 p.1 symbol expiry_index p.2).2))
    (true, st)

/-- The initial session state (`last_capture_time = None`, no series), with a
capture interval of 0 minutes. -/
def init_state (α : Type) : TMState α :=
  { last_capture_time := none, capture_interval := 0, force_capture := false,
    snapshots_by_config := [] }

/-- The SnapshotSeries invariant: strictly increasing timestamps, at most 500
of them, and no dangling keys. -/
def series_inv {α : Type} (s : Series α) : Prop :=
  s.times.Sorted (· < ·) ∧ s.times.length ≤ 500 ∧
  ∀ t ∈ s.times, (dict_get? s.data t).isSome

/-- Every stored series satisfies the SnapshotSeries invariant. -/
def state_inv {α : Type} (st : TMState α) : Prop :=
  ∀ k s, dict_get? st.snapshots_by_config k = some s → series_inv s

/-- The timestamps retained after `n` accepted captures at times
0, 1, ..., n-1 with cap 500: the most recent `min n 500` of them,
ascending. -/
def scenario_times (n : ℕ) : List ℚ :=
  (List.range' (n - min n 500) (min n 500)).map (fun i : ℕ => (i : ℚ))

/-- The series after `n` accepted captures at times 0, 1, ..., n-1. -/
def scenario_series (n : ℕ) : Series Unit :=
  ⟨scenario_times n, (scenario_times n).map (fun t => (t, ()))⟩

/-- The session state after `n` accepted captures at times 0, 1, ..., n-1 on
one key, starting from `init_state`. -/
def scenario_state (symbol : String) (e : ℤ) (n : ℕ) : TMState Unit :=
  if n = 0 then init_state Unit
  else
    { last_capture_time := some ((n - 1 : ℕ) : ℚ)
      capture_interval := 0
      force_capture := false
      snapshots_by_config :=
        [(get_config_key symbol e, scenario_series n)] }

/-- A state whose (only) accepted capture so far was on key ("NIFTY", 0) at
time 0, with a 3-minute capture interval. -/
def c5_state : TMState Unit :=
  { last_capture_time := some 0, capture_interval := 3, force_capture := false,
    snapshots_by_config := [(get_config_key "NIFTY" 0, ⟨[0], [(0, ())]⟩)] }

/-- Python `leg.get(field, 0) or dflt`-style reads of the option-chain legs
(gex_calculator.py:1525-1534): an absent leg, an absent field, or a falsy (0)
value yields the fallback. -/
def py_or (x : Option ℚ) (dflt : ℚ) : ℚ :=
  match x with
  | some v => if v = 0 then dflt else v
  | none => dflt

/-- Python `int()`: float truncation toward zero. -/
def py_int (q : ℚ) : ℤ :=
  if 0 ≤ q then ⌊q⌋ else -⌊-q⌋

/-- Python `round(x, 2)` (tie-breaking at exact half-cents abstracted to
round-half-away, which agrees with float `round` except at exact ties). -/
def round2 (q : ℚ) : ℚ :=
  ((round (q * 100) : ℤ) : ℚ) / 100

/-- `NSEDataFetcher.get_contract_specs` (gex_calculator.py:1397-1405):
`(lot_size, strike_interval)` with the NIFTY default. -/
def get_contract_specs (symbol : String) : ℚ × ℚ :=
  if symbol = "NIFTY" then (25, 50)
  else if symbol = "BANKNIFTY" then (15, 100)
  else if symbol = "FINNIFTY" then (40, 50)
  else if symbol = "MIDCPNIFTY" then (75, 25)
  else (25, 50)

/-- `self.risk_free_rate = 0.07` (gex_calculator.py:1425). -/
def risk_free_rate : ℚ := 7 / 100

/-- `calculate_time_to_expiry` (gex_calculator.py:1428-1436): `(T, days)`
given the parsed day count (`none` when `strptime` raises). -/
def calculate_time_to_expiry (parse_days : String → Option ℤ)
    (expiry : String) : ℚ × ℤ :=
  match parse_days expiry with
  | some days => (max ((days : ℚ) / 365) (1 / 365), max days 1)
  | none => (7 / 365, 7)

/-- Per-strike output row of the pipeline (the dict built at
gex_calculator.py:1569-1597 / 1742-1755; the `_B`-suffixed columns
(1606-1609) and the Total_Volume/Total_OI sums duplicate these base columns
and are omitted as exact copies). -/
structure StrikeRecord where
  strike : ℚ
  call_oi : ℚ
  put_oi : ℚ
  call_oi_change : ℚ
  put_oi_change : ℚ
  call_volume : ℚ
  put_volume : ℚ
  call_iv : ℚ
  put_iv : ℚ
  call_ltp : ℚ
  put_ltp : ℚ
  call_gamma : ℚ
  put_gamma : ℚ
  call_delta : ℚ
  put_delta : ℚ
  call_gex : ℚ
  put_gex : ℚ
  net_gex : ℚ
  call_dex : ℚ
  put_dex : ℚ
  net_dex : ℚ
  call_flow_gex : ℚ
  put_flow_gex : ℚ
  net_flow_gex : ℚ
  call_flow_dex : ℚ
  put_flow_dex : ℚ
  net_flow_dex : ℚ
  deriving Inhabited, DecidableEq

/-- The numeric pricing kernel as used by the pipeline: the float evaluation
of `BlackScholesCalculator` (modelled exactly over ℝ above), kept opaque over
ℚ here since no pipeline-level claim depends on its numeric outputs. -/
structure BSKernel where
  gamma : ℚ → ℚ → ℚ → ℚ → ℚ → ℚ
  call_delta : ℚ → ℚ → ℚ → ℚ → ℚ → ℚ
  put_delta : ℚ → ℚ → ℚ → ℚ → ℚ → ℚ

/-- The `atm_info` dict (gex_calculator.py:1619-1630 / 1783-1794). -/
structure AtmInfo where
  atm_strike : ℚ
  atm_call_premium : ℚ
  atm_put_premium : ℚ
  atm_straddle_premium : ℚ
  spot_price : ℚ
  expiry_date : String
  days_to_expiry : ℤ
  timestamp : String
  expiry_index : ℕ
  all_expiries : List String

/-- The complete snapshot returned by `fetch_and_calculate_gex_dex`:
`(df, futures_ltp, fetch_method, atm_info)`, with the `Hedging_Pressure`
column carried positionally parallel to the table. -/
structure PipelineResult where
  table : List StrikeRecord
  pressures : List ℚ
  futures_ltp : ℚ
  fetch_method : String
  atm_info : AtmInfo

/-- Oracle for the seeded RNG draws and wall-clock reads of
`_generate_demo_data` (gex_calculator.py:1671-1796): one field per draw
site, indexed by the strike offset `i` where the draw is inside the strike
loop.  The stream positions of `np.random` are absorbed into the oracle. -/
structure DemoRand where
  spot_noise : ℚ
  base_oi_noise : ℤ → ℤ
  oi_rand1 : ℤ → ℚ
  oi_rand2 : ℤ → ℚ
  oi_chg_rand1 : ℤ → ℚ
  oi_chg_rand2 : ℤ → ℚ
  vol_rand1 : ℤ → ℚ
  vol_rand2 : ℤ → ℚ
  iv_rand : ℤ → ℚ
  ltp_rand1 : ℤ → ℚ
  ltp_rand2 : ℤ → ℚ
  now_str : String
  next_thu_str : String
  days_to_thu : ℤ

/-- One synthetic strike row of `_generate_demo_data`
(gex_calculator.py:1693-1755), at offset `i` from the ATM strike. -/
def demo_strike_row (bs : BSKernel) (rand : DemoRand)
    (spot_price futures_ltp atm_strike strike_interval lot_size : ℚ)
    (i : ℤ) : StrikeRecord :=
  let strike := atm_strike + i * strike_interval
  let dist : ℚ := |(i : ℚ)|
  let base_oi : ℚ := ((400000 + rand.base_oi_noise i : ℤ) : ℚ)
  let call_oi : ℚ :=
    if i < 0 then
      ((py_int (base_oi * (0.4 + 0.2 * rand.oi_rand1 i)
        * max 0.2 (1 - dist * 0.08)) : ℤ) : ℚ)
    else
      ((py_int (base_oi * (1.1 + 0.3 * rand.oi_rand1 i)
        * max 0.3 (1 - dist * 0.05)) : ℤ) : ℚ)
  let put_oi : ℚ :=
    if i < 0 then
      ((py_int (base_oi * (1.1 + 0.3 * rand.oi_rand2 i)
        * max 0.3 (1 - dist * 0.05)) : ℤ) : ℚ)
    else
      ((py_int (base_oi * (0.4 + 0.2 * rand.oi_rand2 i)
        * max 0.2 (1 - dist * 0.08)) : ℤ) : ℚ)
  let call_oi_change : ℚ :=
    ((py_int ((rand.oi_chg_rand1 i - 0.5) * call_oi * 0.15) : ℤ) : ℚ)
  let put_oi_change : ℚ :=
    ((py_int ((rand.oi_chg_rand2 i - 0.5) * put_oi * 0.15) : ℤ) : ℚ)
  let call_volume : ℚ :=
    ((py_int (call_oi * (0.05 + 0.1 * rand.vol_rand1 i)) : ℤ) : ℚ)
  let put_volume : ℚ :=
    ((py_int (put_oi * (0.05 + 0.1 * rand.vol_rand2 i)) : ℤ) : ℚ)
  let base_iv := 13 + dist * 0.35 + rand.iv_rand i * 1.5
  let call_iv := base_iv + (if 0 < i then (0.8 : ℚ) else -0.3)
  let put_iv := base_iv + (if i < 0 then (0.8 : ℚ) else -0.3)
  let call_ltp :=
    if strike < spot_price then
      max 5 (spot_price - strike + rand.ltp_rand1 i * 20)
    else max 1 (rand.ltp_rand1 i * 30 * max 0.1 (1 - dist * 0.12))
  let put_ltp :=
    if strike < spot_price then
      max 1 (rand.ltp_rand2 i * 30 * max 0.1 (1 - dist * 0.12))
    else max 5 (strike - spot_price + rand.ltp_rand2 i * 20)
  let call_iv_dec := call_iv / 100
  let put_iv_dec := put_iv / 100
  let T : ℚ := 7 / 365
  let call_gamma := bs.gamma futures_ltp strike T risk_free_rate call_iv_dec
  let put_gamma := bs.gamma futures_ltp strike T risk_free_rate put_iv_dec
  let call_delta :=
    bs.call_delta futures_ltp strike T risk_free_rate call_iv_dec
  let put_delta :=
    bs.put_delta futures_ltp strike T risk_free_rate put_iv_dec
  let gex_mult := futures_ltp * futures_ltp * lot_size / 1000000000
  let dex_mult := futures_ltp * lot_size / 1000000000
  let call_gex := call_oi * call_gamma * gex_mult
  let put_gex := -put_oi * put_gamma * gex_mult
  let call_dex := call_oi * call_delta * dex_mult
  let put_dex := put_oi * put_delta * dex_mult
  let call_flow_gex := call_oi_change * call_gamma * gex_mult
  let put_flow_gex := -put_oi_change * put_gamma * gex_mult
  let call_flow_dex := call_oi_change * call_delta * dex_mult
  let put_flow_dex := put_oi_change * put_delta * dex_mult
  { strike := strike
    call_oi := call_oi, put_oi := put_oi
    call_oi_change := call_oi_change, put_oi_change := put_oi_change
    call_volume := call_volume, put_volume := put_volume
    call_iv := round2 call_iv, put_iv := round2 put_iv
    call_ltp := round2 call_ltp, put_ltp := round2 put_ltp
    call_gamma := call_gamma, put_gamma := put_gamma
    call_delta := call_delta, put_delta := put_delta
    call_gex := call_gex, put_gex := put_gex, net_gex := call_gex + put_gex
    call_dex := call_dex, put_dex := put_dex, net_dex := call_dex + put_dex
    call_flow_gex := call_flow_gex, put_flow_gex := put_flow_gex
    net_flow_gex := call_flow_gex + put_flow_gex
    call_flow_dex := call_flow_dex, put_flow_dex := put_flow_dex
    net_flow_dex := call_flow_dex + put_flow_dex }

instance : DecidableRel (fun x y : StrikeRecord => x.strike ≤ y.strike) :=
  fun _ _ => inferInstanceAs (Decidable (_ ≤ _))

/-- `EnhancedGEXDEXCalculator._generate_demo_data`
(gex_calculator.py:1671-1796): the synthetic snapshot, always tagged
"Demo Data". -/
def generate_demo_data (bs : BSKernel) (rand : DemoRand) (symbol : String)
    (strikes_range : ℕ) : PipelineResult :=
  let spot_price : ℚ :=
    if symbol = "NIFTY" then 24250 + rand.spot_noise * 50
    else if symbol = "BANKNIFTY" then 51850 + rand.spot_noise * 100
    else if symbol = "FINNIFTY" then 23150 + rand.spot_noise * 50
    else if symbol = "MIDCPNIFTY" then 12450 + rand.spot_noise * 25
    else 24250
  let specs := get_contract_specs symbol
  let lot_size := specs.1
  let strike_interval := specs.2
  let futures_ltp := spot_price * 1.0008
  let atm_strike : ℚ :=
    ((round (spot_price / strike_interval) : ℤ) : ℚ) * strike_interval
  let offsets : List ℤ :=
    (List.range (2 * strikes_range + 1)).map
      (fun j : ℕ => (j : ℤ) - (strikes_range : ℤ))
  let rows := offsets.map (demo_strike_row bs rand spot_price futures_ltp
    atm_strike strike_interval lot_size)
  let df := rows.insertionSort (fun x y => x.strike ≤ y.strike)
  let atm_row :=
    match df.find? (fun r => decide (r.strike = atm_strike)) with
    | some r => r
    | none => df.getD (df.length / 2) default
  { table := df
    pressures := hedging_pressures (df.map StrikeRecord.net_gex)
    futures_ltp := round2 futures_ltp
    fetch_method := "Demo Data"
    atm_info :=
      { atm_strike := atm_strike
        atm_call_premium := atm_row.call_ltp
        atm_put_premium := atm_row.put_ltp
        atm_straddle_premium := atm_row.call_ltp + atm_row.put_ltp
        spot_price := round2 spot_price
        expiry_date := rand.next_thu_str
        days_to_expiry := rand.days_to_thu
        timestamp := rand.now_str
        expiry_index := 0
        all_expiries := [rand.next_thu_str] } }

/-- The loop state of the option-chain scan
(gex_calculator.py:1499-1597): accumulated rows, the `processed` strike set,
and the ATM tracker `(min_diff, atm_strike, atm_call_premium,
atm_put_premium)` (`none` models `min_diff = inf`, `atm_strike = None`). -/
structure ScanState where
  all_strikes : List StrikeRecord
  processed : List ℚ
  atm : Option (ℚ × ℚ × ℚ × ℚ)

/-- One iteration of the chain-processing loop
(gex_calculator.py:1506-1597). -/
def scan_step (bs : BSKernel) (futures_ltp strike_interval lot_size T : ℚ)
    (strikes_range : ℕ) (expiry : String) (st : ScanState)
    (item : ChainItem) : ScanState :=
  if item.expiryDate ≠ expiry then st
  else
    let strike := item.strikePrice
    if strike = 0 ∨ strike ∈ st.processed then st
    else
      let processed := strike :: st.processed
      let distance := |strike - futures_ltp| / strike_interval
      if (strikes_range : ℚ) < distance then { st with processed := processed }
      else
        let call_oi := py_or (item.ce.bind LegData.openInterest) 0
        let put_oi := py_or (item.pe.bind LegData.openInterest) 0
        let call_oi_change :=
          py_or (item.ce.bind LegData.changeinOpenInterest) 0
        let put_oi_change :=
          py_or (item.pe.bind LegData.changeinOpenInterest) 0
        let call_volume := py_or (item.ce.bind LegData.totalTradedVolume) 0
        let put_volume := py_or (item.pe.bind LegData.totalTradedVolume) 0
        let call_iv := py_or (item.ce.bind LegData.impliedVolatility) 15
        let put_iv := py_or (item.pe.bind LegData.impliedVolatility) 15
        let call_ltp := py_or (item.ce.bind LegData.lastPrice) 0
        let put_ltp := py_or (item.pe.bind LegData.lastPrice) 0
        let diff := |strike - futures_ltp|
        let atm :=
          match st.atm with
          | none => some (diff, strike, call_ltp, put_ltp)
          | some best =>
            if diff < best.1 then some (diff, strike, call_ltp, put_ltp)
            else st.atm
        let call_iv_dec := max (call_iv / 100) 0.05
        let put_iv_dec := max (put_iv / 100) 0.05
        let call_gamma :=
          bs.gamma futures_ltp strike T risk_free_rate call_iv_dec
        let put_gamma :=
          bs.gamma futures_ltp strike T risk_free_rate put_iv_dec
        let call_delta :=
          bs.call_delta futures_ltp strike T risk_free_rate call_iv_dec
        let put_delta :=
          bs.put_delta futures_ltp strike T risk_free_rate put_iv_dec
        let gex_mult := futures_ltp * futures_ltp * lot_size / 1000000000
        let dex_mult := futures_ltp * lot_size / 1000000000
        let call_gex := call_oi * call_gamma * gex_mult
        let put_gex := -put_oi * put_gamma * gex_mult
        let call_dex := call_oi * call_delta * dex_mult
        let put_dex := put_oi * put_delta * dex_mult
        let call_flow_gex := call_oi_change * call_gamma * gex_mult
        let put_flow_gex := -put_oi_change * put_gamma * gex_mult
        let call_flow_dex := call_oi_change * call_delta * dex_mult
        let put_flow_dex := put_oi_change * put_delta * dex_mult
        { all_strikes := st.all_strikes ++
            [{ strike := strike
               call_oi := call_oi, put_oi := put_oi
               call_oi_change := call_oi_change
               put_oi_change := put_oi_change
               call_volume := call_volume, put_volume := put_volume
               call_iv := call_iv, put_iv := put_iv
               call_ltp := call_ltp, put_ltp := put_ltp
               call_gamma := call_gamma, put_gamma := put_gamma
               call_delta := call_delta, put_delta := put_delta
               call_gex := call_gex, put_gex := put_gex
               net_gex := call_gex + put_gex
               call_dex := call_dex, put_dex := put_dex
               net_dex := call_dex + put_dex
               call_flow_gex := call_flow_gex, put_flow_gex := put_flow_gex
               net_flow_gex := call_flow_gex + put_flow_gex
               call_flow_dex := call_flow_dex, put_flow_dex := put_flow_dex
               net_flow_dex := call_flow_dex + put_flow_dex }]
          processed := processed
          atm := atm }

/-- The environment of one `fetch_and_calculate_gex_dex` run: the outcome of
each external interaction.  `session_ok` is the `initialize_session` result
(1452); `chain` the `fetch_option_chain` result (`none` when it returned an
error, 1458-1462); `parse_days` the `datetime` parse oracle; `exc` models an
unexpected exception raised inside the `try` body, handled by the
`except Exception` at 1634; `rand` feeds the synthetic generator; `expQ`
abstracts `np.exp` for cost of carry. -/
structure PipelineEnv where
  session_ok : Bool
  chain : Option ChainRecords
  groww : GrowwEnv
  parse_days : String → Option ℤ
  exc : Bool
  rand : DemoRand
  expQ : ℚ → ℚ

/-- `expiry_dates[min(expiry_index, len(expiry_dates) - 1)]`
(gex_calculator.py:1475). -/
def selected_expiry_of (records : ChainRecords) (expiry_index : ℕ) : String :=
  records.expiryDates.getD (min expiry_index (records.expiryDates.length - 1))
    ""

/-- The whole chain scan of a run (gex_calculator.py:1506-1597), given the
resolved reference price. -/
def pipeline_scan (bs : BSKernel) (records : ChainRecords)
    (futures_ltp : ℚ) (symbol : String) (strikes_range expiry_index : ℕ)
    (T : ℚ) : ScanState :=
  records.data.foldl
    (scan_step bs futures_ltp (get_contract_specs symbol).2
      (get_contract_specs symbol).1 T strikes_range
      (selected_expiry_of records expiry_index))
    ⟨[], [], none⟩

/-- `EnhancedGEXDEXCalculator.fetch_and_calculate_gex_dex`
(gex_calculator.py:1438-1635). -/
def fetch_and_calculate_gex_dex (bs : BSKernel) (env : PipelineEnv)
    (symbol : String) (strikes_range expiry_index : ℕ) : PipelineResult :=
  if env.session_ok then
    match env.chain with
    | none => generate_demo_data bs env.rand symbol strikes_range
    | some records =>
      if env.exc then generate_demo_data bs env.rand symbol strikes_range
      else
        let spot_price := records.underlyingValue
        if records.expiryDates = [] ∨ spot_price = 0 then
          generate_demo_data bs env.rand symbol strikes_range
        else
          let selected_expiry := selected_expiry_of records expiry_index
          let tde := calculate_time_to_expiry env.parse_days selected_expiry
          let res := resolve_futures env.expQ env.groww symbol records
            spot_price tde.2 risk_free_rate selected_expiry
          let futures_ltp := res.1
          let fetch_method := res.2
          let final := pipeline_scan bs records futures_ltp symbol
            strikes_range expiry_index tde.1
          if final.all_strikes = [] then
            generate_demo_data bs env.rand symbol strikes_range
          else
            let df := final.all_strikes.insertionSort
              (fun x y => x.strike ≤ y.strike)
            { table := df
              pressures := hedging_pressures (df.map StrikeRecord.net_gex)
              futures_ltp := futures_ltp
              fetch_method := fetch_method
              atm_info :=
                { atm_strike :=
                    match final.atm with
                    | some a => a.2.1
                    | none => (df.getD (df.length / 2) default).strike
                  atm_call_premium :=
                    match final.atm with
                    | some a => a.2.2.1
                    | none => 0
                  atm_put_premium :=
                    match final.atm with
                    | some a => a.2.2.2
                    | none => 0
                  atm_straddle_premium :=
                    (match final.atm with
                     | some a => a.2.2.1
                     | none => 0) +
                    (match final.atm with
                     | some a => a.2.2.2
                     | none => 0)
                  spot_price := spot_price
                  expiry_date := selected_expiry
                  days_to_expiry := tde.2
                  timestamp := records.timestamp
                  expiry_index := expiry_index
                  all_expiries := records.expiryDates } }
  else generate_demo_data bs env.rand symbol strikes_range

/-- A constant randomness oracle for concrete witnesses. -/
def demo_rand0 : DemoRand :=
  { spot_noise := 0, base_oi_noise := fun _ => 0, oi_rand1 := fun _ => 0
    oi_rand2 := fun _ => 0, oi_chg_rand1 := fun _ => 0
    oi_chg_rand2 := fun _ => 0, vol_rand1 := fun _ => 0
    vol_rand2 := fun _ => 0, iv_rand := fun _ => 0, ltp_rand1 := fun _ => 0
    ltp_rand2 := fun _ => 0, now_str := "", next_thu_str := ""
    days_to_thu := 7 }

/-- A constant-zero pricing kernel for concrete witnesses. -/
def bs0 : BSKernel :=
  { gamma := fun _ _ _ _ _ => 0, call_delta := fun _ _ _ _ _ => 0
    put_delta := fun _ _ _ _ _ => 0 }

/-- An environment whose NSE session initialization failed. -/
def env0 : PipelineEnv :=
  { session_ok := false, chain := none, groww := c3_env_fail
    parse_days := fun _ => none, exc := false, rand := demo_rand0
    expQ := fun q => q }

/-- A three-strike table with alternating net-GEX signs. -/
def c7_df : List GexRow := [⟨100, 5⟩, ⟨200, -3⟩, ⟨300, 4⟩]

theorem norm_pdf_nonneg (x : ℝ) : 0 ≤ norm_pdf x :=
  div_nonneg (Real.exp_pos _).le (Real.sqrt_nonneg _)

theorem norm_cdf_nonneg (x : ℝ) : 0 ≤ norm_cdf x :=
  ProbabilityTheory.cdf_nonneg _ x

theorem norm_cdf_le_one (x : ℝ) : norm_cdf x ≤ 1 :=
  ProbabilityTheory.cdf_le_one _ x

/-- C2: for every degenerate input (T ≤ 0 or σ ≤ 0 or S ≤ 0 or K ≤ 0) each
pricing-kernel output — gamma, call delta, put delta and vega — is exactly 0. -/
theorem C2_pricing_kernel_degenerate_inputs_zero (S K T r sigma : ℝ)
    (h : T ≤ 0 ∨ sigma ≤ 0 ∨ S ≤ 0 ∨ K ≤ 0) :
    calculate_gamma S K T r sigma = 0 ∧
    calculate_call_delta S K T r sigma = 0 ∧
    calculate_put_delta S K T r sigma = 0 ∧
    calculate_vega S K T r sigma = 0 := by
  refine ⟨?_, ?_, ?_, ?_⟩ <;>
    simp only [calculate_gamma, calculate_call_delta, calculate_put_delta,
      calculate_vega, if_pos h]

/-- Witness for C2 at the concrete degenerate input S = 100, K = 100, T = 0,
r = 0.07, σ = 0.15. -/
theorem C2_pricing_kernel_degenerate_inputs_zero_witness :
    calculate_gamma 100 100 0 0.07 0.15 = 0 ∧
    calculate_call_delta 100 100 0 0.07 0.15 = 0 ∧
    calculate_put_delta 100 100 0 0.07 0.15 = 0 ∧
    calculate_vega 100 100 0 0.07 0.15 = 0 :=
  C2_pricing_kernel_degenerate_inputs_zero 100 100 0 0.07 0.15 (Or.inl le_rfl)

/-- C10: for every S > 0, K > 0, T > 0, σ > 0 and any r, the pricing kernel
returns gamma ≥ 0, call delta in [0, 1] and put delta in [-1, 0]. -/
theorem C10_pricing_kernel_valid_input_ranges (S K T r sigma : ℝ)
    (hS : 0 < S) (hK : 0 < K) (hT : 0 < T) (hsig : 0 < sigma) :
    0 ≤ calculate_gamma S K T r sigma ∧
    calculate_call_delta S K T r sigma ∈ Set.Icc (0 : ℝ) 1 ∧
    calculate_put_delta S K T r sigma ∈ Set.Icc (-1 : ℝ) 0 := by
  have hguard : ¬(T ≤ 0 ∨ sigma ≤ 0 ∨ S ≤ 0 ∨ K ≤ 0) := by
    push_neg
    exact ⟨hT, hsig, hS, hK⟩
  refine ⟨?_, ?_, ?_⟩
  · rw [calculate_gamma, if_neg hguard]
    exact div_nonneg (norm_pdf_nonneg _)
      (mul_nonneg (mul_nonneg hS.le hsig.le) (Real.sqrt_nonneg _))
  · rw [calculate_call_delta, if_neg hguard]
    exact ⟨norm_cdf_nonneg _, norm_cdf_le_one _⟩
  · rw [calculate_put_delta, if_neg hguard]
    constructor
    · linarith [norm_cdf_nonneg (calculate_d1 S K T r sigma)]
    · linarith [norm_cdf_le_one (calculate_d1 S K T r sigma)]

/-- Witness for C10 at the concrete valid input S = 1, K = 1, T = 1, r = 0,
σ = 1. -/
theorem C10_pricing_kernel_valid_input_ranges_witness :
    0 ≤ calculate_gamma 1 1 1 0 1 ∧
    calculate_call_delta 1 1 1 0 1 ∈ Set.Icc (0 : ℝ) 1 ∧
    calculate_put_delta 1 1 1 0 1 ∈ Set.Icc (-1 : ℝ) 0 :=
  C10_pricing_kernel_valid_input_ranges 1 1 1 0 1 (by norm_num) (by norm_num)
    (by norm_num) (by norm_num)

theorem price_band_fst_ge (s : String) : 5000 ≤ (price_band s).1 := by
  unfold price_band
  split_ifs <;> norm_num

theorem validate_price_pos {s : String} {p : ℚ}
    (h : validate_price s p = true) : 0 < p := by
  have hand := of_decide_eq_true h
  have hb := price_band_fst_ge s
  linarith [hand.1]

theorem get_futures_price_m1 {env : GrowwEnv} {sym : String} {p : ℚ}
    (hp : env.derivatives_api = some p) (hne : p ≠ 0) :
    get_futures_price env sym = (some p, "Groww API") := by
  simp only [get_futures_price, hp]
  simp [truthy, hne]

theorem get_futures_price_m2 {env : GrowwEnv} {sym : String} {q : ℚ}
    (h1 : truthy env.derivatives_api = false)
    (h2 : fetch_from_futures_page (groww_symbol_of sym) env.page_candidates
        = some q)
    (hq : q ≠ 0) :
    get_futures_price env sym = (some q, "Groww Page") := by
  simp only [get_futures_price]
  rw [h1, h2]
  simp [truthy, hq]

theorem get_futures_price_m3 {env : GrowwEnv} {sym : String} {q : ℚ}
    (h1 : truthy env.derivatives_api = false)
    (h2 : fetch_from_futures_page (groww_symbol_of sym) env.page_candidates
        = none)
    (h3 : env.contract_api = some q) (hq : q ≠ 0) :
    get_futures_price env sym = (some q, "Groww Contract") := by
  simp only [get_futures_price]
  rw [h1, h2, h3]
  simp [truthy, hq]

theorem get_futures_price_fail {env : GrowwEnv} {sym : String}
    (h1 : truthy env.derivatives_api = false)
    (h2 : fetch_from_futures_page (groww_symbol_of sym) env.page_candidates
        = none)
    (h3 : truthy env.contract_api = false) :
    get_futures_price env sym = (none, "Groww fetch failed") := by
  simp only [get_futures_price]
  rw [h1, h2, h3]
  simp [truthy]

/-- C3: the price resolution chain tries its strategies in the fixed order
(derivatives API, band-validated page scrape, contract API, put-call parity,
cost of carry) and returns the first success with that strategy's label; in
particular a validated in-band price from the primary source is returned with
the primary label, regardless of every later strategy's input. -/
theorem C3_price_resolution_chain_first_success (expQ : ℚ → ℚ)
    (env : GrowwEnv) (symbol : String) (records : ChainRecords) (spot : ℚ)
    (days : ℤ) (r : ℚ) (expiry : String) :
    (∀ p, env.derivatives_api = some p →
      validate_price (groww_symbol_of symbol) p = true →
      resolve_futures expQ env symbol records spot days r expiry
        = (p, "Groww API")) ∧
    (∀ q, truthy env.derivatives_api = false →
      fetch_from_futures_page (groww_symbol_of symbol) env.page_candidates
        = some q →
      resolve_futures expQ env symbol records spot days r expiry
        = (q, "Groww Page")) ∧
    (∀ q, truthy env.derivatives_api = false →
      fetch_from_futures_page (groww_symbol_of symbol) env.page_candidates
        = none →
      env.contract_api = some q → q ≠ 0 →
      resolve_futures expQ env symbol records spot days r expiry
        = (q, "Groww Contract")) ∧
    (∀ f, truthy env.derivatives_api = false →
      fetch_from_futures_page (groww_symbol_of symbol) env.page_candidates
        = none →
      truthy env.contract_api = false →
      calculate_futures_from_pcp records spot expiry = some f → f ≠ 0 →
      resolve_futures expQ env symbol records spot days r expiry
        = (f, "Put-Call Parity")) ∧
    (truthy env.derivatives_api = false →
      fetch_from_futures_page (groww_symbol_of symbol) env.page_candidates
        = none →
      truthy env.contract_api = false →
      calculate_futures_from_pcp records spot expiry = none →
      resolve_futures expQ env symbol records spot days r expiry
        = (spot * expQ (r * (days : ℚ) / 365), "Cost of Carry")) := by
  refine ⟨?_, ?_, ?_, ?_, ?_⟩
  · intro p hp hv
    have hne : p ≠ 0 := ne_of_gt (validate_price_pos hv)
    simp [resolve_futures, get_futures_price_m1 hp hne]
  · intro q h1 h2
    have hval : validate_price (groww_symbol_of symbol) q = true := by
      cases hc : env.page_candidates with
      | none => rw [hc] at h2; exact absurd h2 (by simp [fetch_from_futures_page])
      | some l =>
        rw [hc] at h2
        exact List.find?_some h2
    have hne : q ≠ 0 := ne_of_gt (validate_price_pos hval)
    simp [resolve_futures, get_futures_price_m2 h1 h2 hne]
  · intro q h1 h2 h3 hq
    simp [resolve_futures, get_futures_price_m3 h1 h2 h3 hq]
  · intro f h1 h2 h3 hpcp hf
    simp [resolve_futures, get_futures_price_fail h1 h2 h3, hpcp, hf]
  · intro h1 h2 h3 hpcp
    simp [resolve_futures, get_futures_price_fail h1 h2 h3, hpcp]

/-- Witness for C3: each strategy of the chain observed winning at a concrete
input, in order. -/
theorem C3_price_resolution_chain_first_success_witness :
    resolve_futures id c3_env_api "NIFTY" c3_records_empty 0 0 0 ""
      = (25000, "Groww API") ∧
    resolve_futures id c3_env_page "NIFTY" c3_records_empty 0 0 0 ""
      = (24000, "Groww Page") ∧
    resolve_futures id c3_env_contract "NIFTY" c3_records_empty 0 0 0 ""
      = (7, "Groww Contract") ∧
    resolve_futures id c3_env_fail "NIFTY" c3_records_pcp 24000 7 (7/100)
        "30-Oct-2025" = (24010, "Put-Call Parity") ∧
    resolve_futures id c3_env_fail "NIFTY" c3_records_empty 24000 7 (7/100) ""
      = (24000 * id ((7/100) * (7 : ℚ) / 365), "Cost of Carry") := by
  refine ⟨?_, ?_, ?_, ?_, ?_⟩
  · exact (C3_price_resolution_chain_first_success id c3_env_api "NIFTY"
      c3_records_empty 0 0 0 "").1 25000 rfl (by decide)
  · exact (C3_price_resolution_chain_first_success id c3_env_page "NIFTY"
      c3_records_empty 0 0 0 "").2.1 24000 rfl (by decide)
  · exact (C3_price_resolution_chain_first_success id c3_env_contract "NIFTY"
      c3_records_empty 0 0 0 "").2.2.1 7 rfl (by decide) rfl (by decide)
  · exact (C3_price_resolution_chain_first_success id c3_env_fail "NIFTY"
      c3_records_pcp 24000 7 (7/100) "30-Oct-2025").2.2.2.1 24010 rfl
      (by decide) rfl
      (by simp only [calculate_futures_from_pcp, pcp_fold, c3_records_pcp,
            List.foldl_cons, List.foldl_nil]
          norm_num) (by norm_num)
  · exact (C3_price_resolution_chain_first_success id c3_env_fail "NIFTY"
      c3_records_empty 24000 7 (7/100) "").2.2.2.2 rfl (by decide) rfl
      (by decide)

/-- Counterexample to C4 as stated: the derivatives-API strategy accepts and
returns a candidate price of 100 for NIFTY although that price fails the
instrument's band check, so not every resolution strategy treats an
out-of-band candidate as absent. -/
theorem C4_band_check_counterexample :
    validate_price "NIFTY" 100 = false ∧
    get_futures_price c4_env "NIFTY" = (some 100, "Groww API") := by
  constructor
  · decide
  · rfl

/-- C4 (amended): only the page-scrape strategy band-validates its candidates:
there, every accepted candidate lies strictly inside the instrument's sane
band (in particular it is positive, never zero), and when every candidate
fails the band check the strategy yields nothing, so the chain falls through
to the next strategy. -/
theorem C4_page_scrape_band_validation (symbol : String) (cands : List ℚ) :
    (∀ p, fetch_from_futures_page symbol (some cands) = some p →
      validate_price symbol p = true ∧ p ∈ cands ∧ 0 < p) ∧
    ((∀ p ∈ cands, validate_price symbol p = false) →
      fetch_from_futures_page symbol (some cands) = none) := by
  constructor
  · intro p hp
    have hfind : validate_price symbol p = true := List.find?_some hp
    exact ⟨hfind, List.mem_of_find?_eq_some hp, validate_price_pos hfind⟩
  · intro hall
    simp only [fetch_from_futures_page, List.find?_eq_none]
    intro p hel
    simp [hall p hel]

/-- Witness for the amended C4: on the candidate list [100, 25000] for NIFTY
the scrape skips the out-of-band 100 and accepts 25000; on [100] alone it
yields nothing. -/
theorem C4_page_scrape_band_validation_witness :
    (validate_price "NIFTY" 25000 = true ∧ (25000 : ℚ) ∈ [(100 : ℚ), 25000] ∧
      (0 : ℚ) < 25000) ∧
    fetch_from_futures_page "NIFTY" (some [100]) = none := by
  constructor
  · exact (C4_page_scrape_band_validation "NIFTY" [100, 25000]).1 25000
      (by decide)
  · exact (C4_page_scrape_band_validation "NIFTY" [100]).2 (by decide)

theorem flip_scan_eq_adjacent :
    ∀ l : List GexRow, flip_scan l = adjacent_flip_zones l := by
  intro l
  induction l with
  | nil => simp [flip_scan, adjacent_flip_zones]
  | cons a tl ih =>
    cases tl with
    | nil => simp [flip_scan, adjacent_flip_zones]
    | cons b rest =>
      simp only [flip_scan, adjacent_flip_zones, List.tail_cons, List.zip_cons_cons,
        List.filterMap_cons] at *
      split
      · simpa using ih
      · simpa using ih

theorem flip_scan_length_alternating :
    ∀ l : List GexRow, l.Chain' (fun a b => a.net_gex * b.net_gex < 0) →
      (flip_scan l).length = l.length - 1 := by
  intro l
  induction l with
  | nil => intro _; rfl
  | cons a tl ih =>
    cases tl with
    | nil => intro _; rfl
    | cons b rest =>
      intro hch
      rw [List.chain'_cons] at hch
      have hcond : (0 < a.net_gex ∧ b.net_gex < 0) ∨
          (a.net_gex < 0 ∧ 0 < b.net_gex) := by
        rcases mul_neg_iff.mp hch.1 with h | h
        · exact Or.inl h
        · exact Or.inr h
      simp only [flip_scan, if_pos hcond, List.length_append, List.length_cons]
      rw [ih hch.2]
      simp [Nat.add_comm]

theorem flip_scan_all_pos :
    ∀ l : List GexRow, (∀ r ∈ l, 0 < r.net_gex) → flip_scan l = [] := by
  intro l
  induction l with
  | nil => intro _; rfl
  | cons a tl ih =>
    cases tl with
    | nil => intro _; rfl
    | cons b rest =>
      intro hall
      have ha := hall a (by simp)
      have hb := hall b (by simp)
      have hcond : ¬((0 < a.net_gex ∧ b.net_gex < 0) ∨
          (a.net_gex < 0 ∧ 0 < b.net_gex)) := by
        push_neg
        constructor
        · intro _; linarith
        · intro h; linarith
      simp only [flip_scan, if_neg hcond, List.nil_append]
      exact ih (fun r hr => hall r (List.mem_cons_of_mem a hr))

theorem flip_scan_all_neg :
    ∀ l : List GexRow, (∀ r ∈ l, r.net_gex < 0) → flip_scan l = [] := by
  intro l
  induction l with
  | nil => intro _; rfl
  | cons a tl ih =>
    cases tl with
    | nil => intro _; rfl
    | cons b rest =>
      intro hall
      have ha := hall a (by simp)
      have hb := hall b (by simp)
      have hcond : ¬((0 < a.net_gex ∧ b.net_gex < 0) ∨
          (a.net_gex < 0 ∧ 0 < b.net_gex)) := by
        push_neg
        constructor
        · intro h; linarith
        · intro _; linarith
      simp only [flip_scan, if_neg hcond, List.nil_append]
      exact ih (fun r hr => hall r (List.mem_cons_of_mem a hr))

theorem flip_scan_lower_mem :
    ∀ (l : List GexRow) (z : FlipZone), z ∈ flip_scan l →
      z.lower_strike ∈ l.map GexRow.strike := by
  intro l
  induction l with
  | nil => intro z hz; cases hz
  | cons a tl ih =>
    cases tl with
    | nil => intro z hz; cases hz
    | cons b rest =>
      intro z hz
      simp only [flip_scan] at hz
      rcases List.mem_append.mp hz with h | h
      · split at h
        · simp only [List.mem_singleton] at h
          subst h
          simp
        · cases h
      · exact List.mem_cons_of_mem _ (ih z h)

theorem flip_scan_lower_sorted :
    ∀ l : List GexRow, l.Sorted (fun x y => x.strike ≤ y.strike) →
      ((flip_scan l).map FlipZone.lower_strike).Sorted (· ≤ ·) := by
  intro l
  induction l with
  | nil => intro _; simp [flip_scan]
  | cons a tl ih =>
    cases tl with
    | nil => intro _; simp [flip_scan]
    | cons b rest =>
      intro hs
      rw [List.sorted_cons] at hs
      have htail := ih hs.2
      simp only [flip_scan, List.map_append]
      split
      · simp only [List.map_cons, List.map_nil, List.singleton_append]
        rw [List.sorted_cons]
        refine ⟨?_, htail⟩
        intro x hx
        simp only [List.mem_map] at hx
        obtain ⟨z, hz, rfl⟩ := hx
        have hmem := flip_scan_lower_mem _ z hz
        simp only [List.mem_map] at hmem
        obtain ⟨r, hr, hre⟩ := hmem
        rw [← hre]
        exact hs.1 r hr
      · simpa using htail

/-- C7: on an ascending-by-strike exposure table, `detect_gamma_flip_zones`
emits exactly one zone per adjacent pair with strictly opposite net-GEX signs
(a value of exactly 0 counts as a sign match with either neighbor), bounded by
the pair's strikes and labeled by the lower strike's sign; a strictly
alternating-sign sequence of N strikes yields exactly N-1 zones, an
all-positive or all-negative sequence yields none, and the zones come out
ordered by ascending strike. -/
theorem C7_gamma_flip_zone_detection (df : List GexRow)
    (hsorted : df.Sorted (fun x y => x.strike ≤ y.strike)) :
    detect_gamma_flip_zones df = adjacent_flip_zones df ∧
    (df.Chain' (fun a b => a.net_gex * b.net_gex < 0) →
      (detect_gamma_flip_zones df).length = df.length - 1) ∧
    ((∀ r ∈ df, 0 < r.net_gex) → detect_gamma_flip_zones df = []) ∧
    ((∀ r ∈ df, r.net_gex < 0) → detect_gamma_flip_zones df = []) ∧
    ((detect_gamma_flip_zones df).map FlipZone.lower_strike).Sorted (· ≤ ·) := by
  have hdet : detect_gamma_flip_zones df = flip_scan df := by
    unfold detect_gamma_flip_zones
    rw [List.Sorted.insertionSort_eq hsorted]
  rw [hdet]
  exact ⟨flip_scan_eq_adjacent df, flip_scan_length_alternating df,
    flip_scan_all_pos df, flip_scan_all_neg df, flip_scan_lower_sorted df hsorted⟩

/-- Witness for C7 at a concrete alternating three-strike table: the scan
agrees with the per-pair characterization and yields 3 - 1 = 2 zones. -/
theorem C7_gamma_flip_zone_detection_witness :
    detect_gamma_flip_zones c7_df = adjacent_flip_zones c7_df ∧
    (detect_gamma_flip_zones c7_df).length = c7_df.length - 1 := by
  have h := C7_gamma_flip_zone_detection c7_df
    (by simp only [c7_df, List.sorted_cons, List.mem_cons]
        norm_num)
  refine ⟨h.1, h.2.1 ?_⟩
  simp only [c7_df, List.chain'_cons, List.chain'_singleton, and_true]
  norm_num

theorem zip_self_map (f : ℚ → ℚ) :
    ∀ l : List ℚ, l.zip (l.map f) = l.map (fun a => (a, f a)) := by
  intro l
  induction l with
  | nil => rfl
  | cons a tl ih => simp [List.zip_cons_cons, ih]

theorem max_abs_gex_nonneg (gex : List ℚ) : 0 ≤ max_abs_gex gex := by
  induction gex with
  | nil => simp [max_abs_gex]
  | cons a tl ih =>
    simp only [max_abs_gex, List.map_cons, List.foldr_cons] at *
    exact le_trans ih (le_max_right _ _)

theorem abs_le_max_abs_gex :
    ∀ (gex : List ℚ) (g : ℚ), g ∈ gex → |g| ≤ max_abs_gex gex := by
  intro gex
  induction gex with
  | nil => intro g hg; cases hg
  | cons a tl ih =>
    intro g hg
    simp only [max_abs_gex, List.map_cons, List.foldr_cons]
    rcases List.mem_cons.mp hg with h | h
    · subst h
      exact le_max_left _ _
    · exact le_trans (ih g h) (le_max_right _ _)

/-- C8: each strike's hedging pressure is its net GEX divided by the maximum
absolute net GEX times 100, 0 for every strike when that maximum is 0; at a
strike attaining a positive maximum the value is exactly +100 or -100
matching the strike's net-GEX sign; every value lies in [-100, 100]. -/
theorem C8_hedging_pressure_normalization (gex : List ℚ) :
    (hedging_pressures gex).length = gex.length ∧
    (∀ pr ∈ gex.zip (hedging_pressures gex),
      pr.2 = if 0 < max_abs_gex gex then pr.1 / max_abs_gex gex * 100 else 0) ∧
    (∀ pr ∈ gex.zip (hedging_pressures gex), 0 < max_abs_gex gex →
      |pr.1| = max_abs_gex gex → pr.2 = if 0 < pr.1 then 100 else -100) ∧
    (∀ h ∈ hedging_pressures gex, -100 ≤ h ∧ h ≤ 100) := by
  by_cases hm : 0 < max_abs_gex gex
  · have hzip : gex.zip (hedging_pressures gex)
        = gex.map (fun g => (g, g / max_abs_gex gex * 100)) := by
      rw [hedging_pressures, if_pos hm, zip_self_map]
    refine ⟨?_, ?_, ?_, ?_⟩
    · rw [hedging_pressures, if_pos hm, List.length_map]
    · intro pr hpr
      rw [hzip, List.mem_map] at hpr
      obtain ⟨g, _, rfl⟩ := hpr
      simp [hm]
    · intro pr hpr _ habs
      rw [hzip, List.mem_map] at hpr
      obtain ⟨g, _, rfl⟩ := hpr
      simp only
      rcases lt_trichotomy 0 g with hg | hg | hg
      · rw [if_pos hg]
        rw [abs_of_pos hg] at habs
        rw [habs, div_self (ne_of_gt hm)]
        norm_num
      · rw [← hg] at habs
        simp at habs
        rw [← habs] at hm
        exact absurd hm (lt_irrefl 0)
      · rw [if_neg (by linarith)]
        rw [abs_of_neg hg] at habs
        have hgm : g = -max_abs_gex gex := by linarith
        rw [hgm, neg_div, div_self (ne_of_gt hm)]
        norm_num
    · intro h hh
      rw [hedging_pressures, if_pos hm, List.mem_map] at hh
      obtain ⟨g, hg, rfl⟩ := hh
      have h1 : g / max_abs_gex gex ≤ 1 :=
        (div_le_one hm).mpr (le_trans (le_abs_self g) (abs_le_max_abs_gex gex g hg))
      have h2 : -1 ≤ g / max_abs_gex gex := by
        have : -g ≤ max_abs_gex gex := by
          have := abs_le_max_abs_gex gex g hg
          have := neg_abs_le g
          linarith
        have hneg : -g / max_abs_gex gex ≤ 1 := (div_le_one hm).mpr this
        rw [neg_div] at hneg
        linarith
      constructor <;> linarith
  · have hz : hedging_pressures gex = gex.map (fun _ => 0) := by
      rw [hedging_pressures, if_neg hm]
    refine ⟨?_, ?_, ?_, ?_⟩
    · rw [hz, List.length_map]
    · intro pr hpr
      rw [hz, zip_self_map] at hpr
      rw [List.mem_map] at hpr
      obtain ⟨g, _, rfl⟩ := hpr
      simp [hm]
    · intro pr _ hcon
      exact absurd hcon hm
    · intro h hh
      rw [hz, List.mem_map] at hh
      obtain ⟨g, _, rfl⟩ := hh
      norm_num

theorem c8_max_eval : max_abs_gex [50, -100] = 100 := by
  simp only [max_abs_gex, List.map_cons, List.map_nil, List.foldr_cons,
    List.foldr_nil]
  rw [abs_of_nonneg (by norm_num : (0:ℚ) ≤ 50),
    abs_of_nonpos (by norm_num : (-100:ℚ) ≤ 0), neg_neg]
  rw [max_eq_left (by norm_num : (0:ℚ) ≤ 100)]
  rw [max_eq_right (by norm_num : (50:ℚ) ≤ 100)]

theorem c8_hp_eval : hedging_pressures [50, -100] = [50, -100] := by
  rw [hedging_pressures, c8_max_eval, if_pos (by norm_num : (0:ℚ) < 100)]
  norm_num

/-- Witness for C8 at the concrete table [50, -100]: the second strike attains
the maximum |net GEX| = 100 and gets pressure exactly -100; the first gets
50 / 100 * 100. -/
theorem C8_hedging_pressure_normalization_witness :
    (hedging_pressures [50, -100]).length = ([(50 : ℚ), -100]).length ∧
    ((50 : ℚ), (50 : ℚ)).2 = (if 0 < max_abs_gex [50, -100] then
      ((50 : ℚ), (50 : ℚ)).1 / max_abs_gex [50, -100] * 100 else 0) ∧
    ((-100 : ℚ), (-100 : ℚ)).2
      = (if 0 < ((-100 : ℚ), (-100 : ℚ)).1 then 100 else -100) := by
  have h := C8_hedging_pressure_normalization [50, -100]
  refine ⟨h.1, h.2.1 (50, 50) ?_, h.2.2.1 (-100, -100) ?_ ?_ ?_⟩
  · rw [c8_hp_eval]
    decide
  · rw [c8_hp_eval]
    decide
  · rw [c8_max_eval]
    norm_num
  · rw [c8_max_eval]
    norm_num

theorem dedup_by_strike_mem_aux :
    ∀ (rows acc : List FlowRow) (r : FlowRow),
      r ∈ rows.foldl
        (fun acc r =>
          if acc.any (fun x => decide (x.strike = r.strike)) then acc
          else acc ++ [r]) acc →
      r ∈ acc ∨ r ∈ rows := by
  intro rows
  induction rows with
  | nil => intro acc r h; exact Or.inl h
  | cons x tl ih =>
    intro acc r h
    simp only [List.foldl_cons] at h
    rcases ih _ r h with h' | h'
    · by_cases hc : acc.any (fun y => decide (y.strike = x.strike)) = true
      · rw [if_pos hc] at h'
        exact Or.inl h'
      · rw [if_neg hc] at h'
        rcases List.mem_append.mp h' with h'' | h''
        · exact Or.inl h''
        · simp only [List.mem_singleton] at h''
          exact Or.inr (h'' ▸ List.mem_cons_self x tl)
    · exact Or.inr (List.mem_cons_of_mem x h')

theorem mem_df_unique_rows {df : List FlowRow} {r : FlowRow}
    (h : r ∈ df_unique_rows df) : r ∈ df := by
  unfold df_unique_rows at h
  have h2 : r ∈ dedup_by_strike df := (List.perm_insertionSort _ _).mem_iff.mp h
  unfold dedup_by_strike at h2
  rcases dedup_by_strike_mem_aux df [] r h2 with h3 | h3
  · cases h3
  · exact h3

/-- C9 (amended): if every strike's net GEX is 0, the classifier returns the
neutral GEX bias label and a zero near-GEX subtotal, and the combined signal
— the arithmetic mean of the near GEX and DEX subtotals — collapses to half
the near-DEX subtotal (hence 0 only when that subtotal is also 0). -/
theorem C9_flow_classifier_all_zero_gex (df : List FlowRow) (ltp : ℚ)
    (hzero : ∀ r ∈ df, r.net_gex = 0) :
    (calculate_dual_gex_dex_flow df ltp).gex_near_bias = "⚪ NEUTRAL" ∧
    (calculate_dual_gex_dex_flow df ltp).gex_near_total = 0 ∧
    (calculate_dual_gex_dex_flow df ltp).combined_signal
      = (calculate_dual_gex_dex_flow df ltp).dex_near_total / 2 := by
  have hpos : (df_unique_rows df).filter (fun r => decide (0 < r.net_gex))
      = [] := by
    rw [List.filter_eq_nil_iff]
    intro r hr
    have hz := hzero r (mem_df_unique_rows hr)
    simp [hz]
  have hneg : (df_unique_rows df).filter (fun r => decide (r.net_gex < 0))
      = [] := by
    rw [List.filter_eq_nil_iff]
    intro r hr
    have hz := hzero r (mem_df_unique_rows hr)
    simp [hz]
  refine ⟨?_, ?_, ?_⟩
  · simp only [calculate_dual_gex_dex_flow, hpos, hneg, nsmallest_by_dist,
      List.insertionSort, List.take_nil, List.map_nil, List.sum_nil,
      add_zero, zero_add, get_gex_bias]
    norm_num
  · simp only [calculate_dual_gex_dex_flow, hpos, hneg, nsmallest_by_dist,
      List.insertionSort, List.take_nil, List.map_nil, List.sum_nil,
      add_zero, zero_add]
  · simp only [calculate_dual_gex_dex_flow, hpos, hneg, nsmallest_by_dist,
      List.insertionSort, List.take_nil, List.map_nil, List.sum_nil,
      add_zero, zero_add]

/-- Witness for the amended C9 at the concrete one-strike table with zero net
GEX: neutral bias, zero near-GEX subtotal, and a combined signal of half the
near-DEX subtotal. -/
theorem C9_flow_classifier_all_zero_gex_witness :
    (calculate_dual_gex_dex_flow c9_df 23900).gex_near_bias
      = "⚪ NEUTRAL" ∧
    (calculate_dual_gex_dex_flow c9_df 23900).gex_near_total = 0 ∧
    (calculate_dual_gex_dex_flow c9_df 23900).combined_signal
      = (calculate_dual_gex_dex_flow c9_df 23900).dex_near_total / 2 :=
  C9_flow_classifier_all_zero_gex c9_df 23900
    (by intro r hr
        simp only [c9_df, List.mem_singleton] at hr
        rw [hr])

/-- Counterexample to C9 as stated: a table whose single strike has net GEX 0
but net DEX 10 (lying above the reference price 23900) yields combined signal
(0 + 10) / 2 = 5 ≠ 0, although every strike's net GEX is 0. -/
theorem C9_flow_classifier_counterexample :
    (∀ r ∈ c9_df, r.net_gex = 0) ∧
    (calculate_dual_gex_dex_flow c9_df 23900).gex_near_bias = "⚪ NEUTRAL" ∧
    (calculate_dual_gex_dex_flow c9_df 23900).combined_signal = 5 := by
  refine ⟨?_, ?_, ?_⟩
  · intro r hr
    simp only [c9_df, List.mem_singleton] at hr
    rw [hr]
  · have h := C9_flow_classifier_all_zero_gex c9_df 23900
      (by intro r hr
          simp only [c9_df, List.mem_singleton] at hr
          rw [hr])
    exact h.1
  · simp only [calculate_dual_gex_dex_flow, c9_df, df_unique_rows,
      dedup_by_strike, List.foldl_cons, List.foldl_nil, List.any_nil,
      Bool.false_eq_true, if_false, List.nil_append, List.insertionSort,
      List.orderedInsert, nsmallest_by_dist, List.filter, List.take_nil,
      List.map_nil, List.sum_nil]
    norm_num

theorem dict_get_set_self {κ : Type} [DecidableEq κ] {α : Type} :
    ∀ (d : List (κ × α)) (k : κ) (v : α),
      dict_get? (dict_set d k v) k = some v := by
  intro d k v
  induction d with
  | nil => simp [dict_set, dict_get?]
  | cons p rest ih =>
    by_cases hp : p.1 = k
    · simp [dict_set, hp, dict_get?]
    · simp [dict_set, hp, dict_get?, ih]

theorem dict_get_set_ne {κ : Type} [DecidableEq κ] {α : Type} {k k' : κ}
    (hne : k' ≠ k) :
    ∀ (d : List (κ × α)) (v : α),
      dict_get? (dict_set d k v) k' = dict_get? d k' := by
  intro d v
  have hkk : ¬(k = k') := fun h => hne h.symm
  induction d with
  | nil => simp [dict_set, dict_get?, hkk]
  | cons p rest ih =>
    by_cases hp : p.1 = k
    · have hp' : ¬(p.1 = k') := by
        rw [hp]
        exact hkk
      simp [dict_set, hp, dict_get?, hkk, hp']
    · by_cases hp' : p.1 = k'
      · simp [dict_set, hp, dict_get?, hp', hne]
      · simp [dict_set, hp, dict_get?, hp', ih]

theorem dict_get_erase_ne {κ : Type} [DecidableEq κ] {α : Type} {k k' : κ}
    (hne : k' ≠ k) :
    ∀ d : List (κ × α), dict_get? (dict_erase d k) k' = dict_get? d k' := by
  intro d
  induction d with
  | nil => simp [dict_erase, dict_get?]
  | cons p rest ih =>
    by_cases hp : p.1 = k
    · have hp' : ¬(p.1 = k') := by
        rw [hp]
        exact fun h => hne h.symm
      simp only [dict_erase, List.filter_cons] at ih ⊢
      rw [if_neg (by simpa using hp)]
      rw [ih]
      simp [dict_get?, hp']
    · simp only [dict_erase, List.filter_cons] at ih ⊢
      rw [if_pos (by simpa using hp)]
      by_cases hp' : p.1 = k'
      · simp [dict_get?, hp']
      · simp only [dict_get?, if_neg hp']
        exact ih

theorem dict_set_of_not_mem {κ : Type} [DecidableEq κ] {α : Type} {k : κ} :
    ∀ (d : List (κ × α)) (v : α), (∀ p ∈ d, p.1 ≠ k) →
      dict_set d k v = d ++ [(k, v)] := by
  intro d v
  induction d with
  | nil => intro _; rfl
  | cons p rest ih =>
    intro hall
    have hp : p.1 ≠ k := hall p (List.mem_cons_self p rest)
    simp only [dict_set, if_neg hp, List.cons_append]
    rw [ih (fun q hq => hall q (List.mem_cons_of_mem p hq))]

theorem evict_loop_of_le {α : Type} :
    ∀ (times : List ℚ) (d : List (ℚ × α)), times.length ≤ 500 →
      evict_loop times d = (times, d) := by
  intro times d h
  cases times with
  | nil => rfl
  | cons t rest =>
    rw [evict_loop, if_neg (by omega)]

theorem evict_loop_fst_eq_drop {α : Type} :
    ∀ (times : List ℚ) (d : List (ℚ × α)),
      (evict_loop times d).1 = times.drop (times.length - 500) := by
  intro times
  induction times with
  | nil => intro d; simp [evict_loop]
  | cons t rest ih =>
    intro d
    by_cases h : 500 < (t :: rest).length
    · rw [evict_loop, if_pos h, ih]
      have hlen : (t :: rest).length - 500 = (rest.length - 500) + 1 := by
        simp only [List.length_cons] at h ⊢
        omega
      rw [hlen, List.drop_succ_cons]
    · rw [evict_loop, if_neg h]
      have hlen : (t :: rest).length - 500 = 0 := by
        simp only [List.length_cons] at h ⊢
        omega
      rw [hlen, List.drop_zero]

theorem evict_loop_get_mem {α : Type} :
    ∀ (times : List ℚ) (d : List (ℚ × α)), times.Sorted (· < ·) →
      ∀ x ∈ (evict_loop times d).1,
        dict_get? (evict_loop times d).2 x = dict_get? d x := by
  intro times
  induction times with
  | nil => intro d _ x hx; simp [evict_loop] at hx
  | cons t rest ih =>
    intro d hs x hx
    rw [List.sorted_cons] at hs
    by_cases h : 500 < (t :: rest).length
    · rw [evict_loop, if_pos h] at hx ⊢
      have hxr : x ∈ rest := by
        have hsub : (evict_loop rest (dict_erase d t)).1 ⊆ rest := by
          rw [evict_loop_fst_eq_drop]
          exact List.drop_subset _ _
        exact hsub hx
      have hxt : x ≠ t := (hs.1 x hxr).ne'
      rw [ih (dict_erase d t) hs.2 x hx, dict_get_erase_ne hxt]
    · rw [evict_loop, if_neg h]

/-- Counterexample to C5 as stated: with a 3-minute interval and the last
accepted capture at time 0 on key ("NIFTY", 0), a capture on the different
key ("BANKNIFTY", 0) at time 1 is rejected and nothing is stored, so an
accepted capture on one ConfigKey does throttle a capture on another. -/
theorem C5_debounce_per_key_counterexample :
    get_config_key "BANKNIFTY" 0 ≠ get_config_key "NIFTY" 0 ∧
    dict_get? c5_state.snapshots_by_config (get_config_key "NIFTY" 0)
      = some ⟨[0], [(0, ())]⟩ ∧
    capture_snapshot Unit c5_state 1 "BANKNIFTY" 0 () = (false, c5_state) ∧
    dict_get? c5_state.snapshots_by_config (get_config_key "BANKNIFTY" 0)
      = none := by
  refine ⟨by decide, rfl, ?_, rfl⟩
  have h13 : (1 : ℚ) - 0 < 3 := by norm_num
  simp [capture_snapshot, gate_rejects, c5_state, h13]

/-- C5 (amended): the debounce gate is global, not per-key — `capture`
returns `false` and stores nothing whenever the elapsed time since the last
accepted capture on ANY key is below the configured interval and the forced
override is off; with the override set it always stores the snapshot under
the requested key's series at the capture time and resets the gate's
reference time (for any invariant-satisfying state whose stored times
precede `now`). -/
theorem C5_capture_debounce_global_gate (α : Type) (st : TMState α)
    (now : ℚ) (symbol : String) (e : ℤ) (snap : α) :
    (∀ t, st.last_capture_time = some t → now - t < st.capture_interval →
      st.force_capture = false →
      capture_snapshot α st now symbol e snap = (false, st)) ∧
    (st.force_capture = true → state_inv st →
      (∀ ts ∈ ((dict_get? st.snapshots_by_config
          (get_config_key symbol e)).getD ⟨[], []⟩).times, ts < now) →
      (capture_snapshot α st now symbol e snap).1 = true ∧
      (capture_snapshot α st now symbol e snap).2.last_capture_time
        = some now ∧
      (capture_snapshot α st now symbol e snap).2.force_capture = false ∧
      ∃ s, dict_get?
          (capture_snapshot α st now symbol e snap).2.snapshots_by_config
          (get_config_key symbol e) = some s ∧
        dict_get? s.data now = some snap ∧ now ∈ s.times) := by
  constructor
  · intro t ht hlt hforce
    simp [capture_snapshot, gate_rejects, ht, hforce, hlt]
  · intro hf hinv hlt
    have hreject : gate_rejects st.last_capture_time now
        st.capture_interval st.force_capture = false := by
      cases st.last_capture_time <;> simp [gate_rejects, hf]
    set key := get_config_key symbol e with hkey
    set cfg := (dict_get? st.snapshots_by_config key).getD ⟨[], []⟩ with hcfg
    have hcinv : series_inv cfg := by
      rcases hc : dict_get? st.snapshots_by_config key with _ | s
      · rw [hcfg, hc]
        exact ⟨List.sorted_nil, by simp, by simp⟩
      · rw [hcfg, hc]
        exact hinv key s hc
    have hnotmem : now ∉ cfg.times := fun hmem => lt_irrefl now (hlt now hmem)
    have hsortedle : (cfg.times ++ [now]).Sorted (fun a b : ℚ => a ≤ b) := by
      rw [List.Sorted, List.pairwise_append]
      refine ⟨hcinv.1.imp (fun h => le_of_lt h), List.pairwise_singleton _ _,
        ?_⟩
      intro a ha b hb
      rw [List.mem_singleton] at hb
      subst hb
      exact le_of_lt (hlt a ha)
    have hsortedlt : (cfg.times ++ [now]).Sorted (· < ·) := by
      rw [List.Sorted, List.pairwise_append]
      refine ⟨hcinv.1, List.pairwise_singleton _ _, ?_⟩
      intro a ha b hb
      rw [List.mem_singleton] at hb
      subst hb
      exact hlt a ha
    have htimes1 : (if now ∈ cfg.times then cfg.times
        else (cfg.times ++ [now]).insertionSort (fun a b => a ≤ b))
        = cfg.times ++ [now] := by
      rw [if_neg hnotmem, List.Sorted.insertionSort_eq hsortedle]
    have hdrople : (cfg.times ++ [now]).length - 500 ≤ cfg.times.length := by
      rw [List.length_append, List.length_singleton]
      omega
    have hmem2 : now ∈ (evict_loop (cfg.times ++ [now])
        (dict_set cfg.data now snap)).1 := by
      rw [evict_loop_fst_eq_drop, List.drop_append_of_le_length hdrople]
      exact List.mem_append_right _ (List.mem_singleton_self now)
    have hget2 : dict_get? (evict_loop (cfg.times ++ [now])
        (dict_set cfg.data now snap)).2 now = some snap := by
      rw [evict_loop_get_mem _ _ hsortedlt now hmem2, dict_get_set_self]
    refine ⟨?_, ?_, ?_, ?_⟩
    · simp [capture_snapshot, hreject]
    · simp [capture_snapshot, hreject]
    · simp [capture_snapshot, hreject]
    · refine ⟨⟨(evict_loop (cfg.times ++ [now])
          (dict_set cfg.data now snap)).1,
        (evict_loop (cfg.times ++ [now])
          (dict_set cfg.data now snap)).2⟩, ?_, hget2, hmem2⟩
      simp only [capture_snapshot, hreject, Bool.false_eq_true, if_false,
        ← hkey, ← hcfg, htimes1]
      exact dict_get_set_self _ _ _

/-- Witness for the amended C5, at concrete inputs: (a) the gate rejection at
`c5_state` (elapsed 1 < interval 3) leaves the state unchanged, and (b) with
the forced override set on the same state a capture at time 1 on the other
key is accepted, stores the snapshot and resets the gate. -/
theorem C5_capture_debounce_global_gate_witness :
    capture_snapshot Unit c5_state 1 "BANKNIFTY" 0 () = (false, c5_state) ∧
    ((capture_snapshot Unit
        { c5_state with force_capture := true } 1 "BANKNIFTY" 0 ()).1
      = true ∧
     (capture_snapshot Unit
        { c5_state with force_capture := true } 1 "BANKNIFTY" 0
        ()).2.last_capture_time = some 1 ∧
     (capture_snapshot Unit
        { c5_state with force_capture := true } 1 "BANKNIFTY" 0
        ()).2.force_capture = false ∧
     ∃ s, dict_get? (capture_snapshot Unit
          { c5_state with force_capture := true } 1 "BANKNIFTY" 0
          ()).2.snapshots_by_config (get_config_key "BANKNIFTY" 0)
        = some s ∧
       dict_get? s.data 1 = some () ∧ (1 : ℚ) ∈ s.times) := by
  constructor
  · exact (C5_capture_debounce_global_gate Unit c5_state 1 "BANKNIFTY" 0
      ()).1 0 rfl (by norm_num [c5_state]) rfl
  · refine (C5_capture_debounce_global_gate Unit
      { c5_state with force_capture := true } 1 "BANKNIFTY" 0 ()).2 rfl
      ?_ ?_
    · intro k s hks
      simp only [c5_state, dict_get?] at hks
      split at hks
      · cases hks
        refine ⟨List.sorted_singleton _, by norm_num, ?_⟩
        intro t ht
        rw [List.mem_singleton] at ht
        subst ht
        simp [dict_get?]
      · cases hks
    · intro ts hts
      rw [show dict_get? ({ c5_state with
          force_capture := true } : TMState Unit).snapshots_by_config
          (get_config_key "BANKNIFTY" 0) = none from rfl] at hts
      simp only [Option.getD_none] at hts
      cases hts

theorem sorted_lt_of_le_nodup {l : List ℚ}
    (hle : l.Sorted (fun a b : ℚ => a ≤ b)) (hnd : l.Nodup) :
    l.Sorted (· < ·) :=
  (hle.and hnd).imp (fun h => lt_of_le_of_ne h.1 h.2)

theorem sorted_append_le {l : List ℚ} {x : ℚ} (hs : l.Sorted (· < ·))
    (hlt : ∀ t ∈ l, t < x) :
    (l ++ [x]).Sorted (fun a b : ℚ => a ≤ b) := by
  rw [List.Sorted, List.pairwise_append]
  refine ⟨hs.imp le_of_lt, List.pairwise_singleton _ _, ?_⟩
  intro a ha b hb
  rw [List.mem_singleton] at hb
  subst hb
  exact le_of_lt (hlt a ha)

theorem sorted_append_lt {l : List ℚ} {x : ℚ} (hs : l.Sorted (· < ·))
    (hlt : ∀ t ∈ l, t < x) : (l ++ [x]).Sorted (· < ·) := by
  rw [List.Sorted, List.pairwise_append]
  refine ⟨hs, List.pairwise_singleton _ _, ?_⟩
  intro a ha b hb
  rw [List.mem_singleton] at hb
  subst hb
  exact hlt a ha

set_option maxRecDepth 4000 in
/-- The series written by an accepted capture satisfies the invariant again:
sortedness, the 500 cap, and no dangling keys. -/
theorem capture_series_inv {α : Type} (cfg : Series α) (now : ℚ) (snap : α)
    (hcinv : series_inv cfg) :
    series_inv
      ⟨(evict_loop
          (if now ∈ cfg.times then cfg.times
           else (cfg.times ++ [now]).insertionSort (fun a b => a ≤ b))
          (dict_set cfg.data now snap)).1,
        (evict_loop
          (if now ∈ cfg.times then cfg.times
           else (cfg.times ++ [now]).insertionSort (fun a b => a ≤ b))
          (dict_set cfg.data now snap)).2⟩ := by
  set times1 :=
    if now ∈ cfg.times then cfg.times
    else (cfg.times ++ [now]).insertionSort (fun a b => a ≤ b) with htimes1
  have hsorted1 : times1.Sorted (· < ·) := by
    rw [htimes1]
    by_cases hmem : now ∈ cfg.times
    · rw [if_pos hmem]
      exact hcinv.1
    · rw [if_neg hmem]
      apply sorted_lt_of_le_nodup (List.sorted_insertionSort _ _)
      apply (List.perm_insertionSort _ _).nodup_iff.mpr
      rw [List.nodup_append]
      refine ⟨hcinv.1.nodup, List.nodup_singleton _, ?_⟩
      intro a ha hb
      rw [List.mem_singleton] at hb
      subst hb
      exact hmem ha
  have hmem1 : ∀ t ∈ times1, t = now ∨ t ∈ cfg.times := by
    intro t ht
    rw [htimes1] at ht
    by_cases hmem : now ∈ cfg.times
    · rw [if_pos hmem] at ht
      exact Or.inr ht
    · rw [if_neg hmem] at ht
      have := (List.perm_insertionSort _ _).mem_iff.mp ht
      rcases List.mem_append.mp this with h | h
      · exact Or.inr h
      · rw [List.mem_singleton] at h
        exact Or.inl h
  refine ⟨?_, ?_, ?_⟩
  · have hsub : List.Sublist
        (evict_loop times1 (dict_set cfg.data now snap)).1 times1 := by
      rw [evict_loop_fst_eq_drop]
      exact List.drop_sublist _ _
    exact List.Pairwise.sublist hsub hsorted1
  · rw [evict_loop_fst_eq_drop, List.length_drop]
    omega
  · intro t ht
    have htm : t ∈ times1 := by
      have ht2 := ht
      rw [evict_loop_fst_eq_drop] at ht2
      exact List.mem_of_mem_drop ht2
    rw [evict_loop_get_mem times1 (dict_set cfg.data now snap) hsorted1 t ht]
    by_cases hn : t = now
    · subst hn
      rw [dict_get_set_self]
      rfl
    · rw [dict_get_set_ne hn]
      rcases hmem1 t htm with h | h
      · exact absurd h hn
      · exact hcinv.2.2 t h

/-- Every capture — accepted or rejected — preserves the state invariant. -/
theorem capture_preserves_inv (α : Type) (st : TMState α) (now : ℚ)
    (symbol : String) (e : ℤ) (snap : α) (hinv : state_inv st) :
    state_inv (capture_snapshot α st now symbol e snap).2 := by
  by_cases hrej : gate_rejects st.last_capture_time now
      st.capture_interval st.force_capture = true
  · simp only [capture_snapshot, hrej, if_true]
    exact hinv
  · rw [Bool.not_eq_true] at hrej
    simp only [capture_snapshot, hrej, Bool.false_eq_true, if_false]
    intro k sres hks
    by_cases hk : k = get_config_key symbol e
    · subst hk
      rw [dict_get_set_self] at hks
      cases hks
      apply capture_series_inv
      rcases hc : dict_get? st.snapshots_by_config
          (get_config_key symbol e) with _ | s0
      · exact ⟨List.sorted_nil, by simp, by simp [dict_get?]⟩
      · exact hinv _ s0 hc
    · rw [dict_get_set_ne hk] at hks
      exact hinv k sres hks

theorem scenario_times_mem_lt (n : ℕ) :
    ∀ x ∈ scenario_times n, x < (n : ℚ) := by
  intro x hx
  simp only [scenario_times, List.mem_map] at hx
  obtain ⟨i, hi, rfl⟩ := hx
  rw [List.mem_range'_1] at hi
  have hin : i < n := by
    have := Nat.min_le_left n 500
    omega
  exact_mod_cast hin

theorem scenario_times_sorted (n : ℕ) :
    (scenario_times n).Sorted (· < ·) := by
  simp only [scenario_times, List.Sorted]
  refine List.Pairwise.map _ ?_ (List.pairwise_lt_range' _ _)
  intro a b hab
  exact_mod_cast hab

theorem scenario_step (s : String) (e : ℤ) (n : ℕ) :
    capture_snapshot Unit (scenario_state s e n) ((n : ℕ) : ℚ) s e ()
      = (true, scenario_state s e (n + 1)) := by
  rcases Nat.eq_zero_or_pos n with hn0 | hn1
  · subst hn0
    have h1 : scenario_state s e 1 =
        { last_capture_time := some ((0 : ℕ) : ℚ)
          capture_interval := 0
          force_capture := false
          snapshots_by_config :=
            [(get_config_key s e,
              ⟨[((0 : ℕ) : ℚ)], [(((0 : ℕ) : ℚ), ())]⟩)] } := by
      simp only [scenario_state, scenario_series, scenario_times]
      norm_num
    rw [show scenario_state s e 0 = init_state Unit from by
      simp [scenario_state], h1]
    simp [capture_snapshot, gate_rejects, init_state, dict_get?, dict_set,
      evict_loop, List.insertionSort, List.orderedInsert]
  · have hne0 : n ≠ 0 := by omega
    have hst : scenario_state s e n =
        { last_capture_time := some ((n - 1 : ℕ) : ℚ)
          capture_interval := 0
          force_capture := false
          snapshots_by_config :=
            [(get_config_key s e,
              ⟨scenario_times n,
                (scenario_times n).map (fun t => (t, ()))⟩)] } := by
      rw [scenario_state, if_neg hne0]
      rfl
    have hgate : ¬((n : ℚ) - ((n - 1 : ℕ) : ℚ) < 0) := by
      rw [Nat.cast_sub hn1]
      have harith : (n : ℚ) - ((n : ℚ) - (1 : ℚ)) = 1 := by ring
      rw [Nat.cast_one, harith]
      norm_num
    have hmemlt := scenario_times_mem_lt n
    have hnotmem : ((n : ℕ) : ℚ) ∉ scenario_times n :=
      fun hm => lt_irrefl _ (hmemlt _ hm)
    have hsortedtl := scenario_times_sorted n
    have hs_le : (scenario_times n ++ [((n : ℕ) : ℚ)]).Sorted
        (fun a b : ℚ => a ≤ b) := sorted_append_le hsortedtl hmemlt
    have hdata_ne : ∀ p ∈ (scenario_times n).map (fun t => (t, ())),
        p.1 ≠ ((n : ℕ) : ℚ) := by
      intro p hp
      rw [List.mem_map] at hp
      obtain ⟨t, htmem, rfl⟩ := hp
      exact ne_of_lt (hmemlt t htmem)
    rw [hst]
    simp only [capture_snapshot, gate_rejects]
    rw [if_neg (by simp [hgate])]
    simp only [dict_get?, eq_self_iff_true, if_true, Option.getD_some]
    rw [dict_set_of_not_mem _ _ hdata_ne]
    rw [if_neg hnotmem, List.Sorted.insertionSort_eq hs_le]
    rcases lt_or_ge n 500 with hlt500 | hge500
    · have hlen_tl : (scenario_times n).length = n := by
        simp only [scenario_times, List.length_map, List.length_range']
        omega
      rw [evict_loop_of_le _ _ (by
        rw [List.length_append, hlen_tl]
        simp
        omega)]
      have htl_succ : scenario_times (n + 1)
          = scenario_times n ++ [((n : ℕ) : ℚ)] := by
        simp only [scenario_times]
        rw [show min (n + 1) 500 = n + 1 from by omega,
          show min n 500 = n from by omega,
          Nat.sub_self, Nat.sub_self, List.range'_1_concat, Nat.zero_add,
          List.map_append]
        rfl
      rw [scenario_state, if_neg (Nat.succ_ne_zero n)]
      simp only [scenario_series, htl_succ, Nat.add_sub_cancel,
        List.map_append, Prod.mk.injEq, TMState.mk.injEq]
      refine ⟨trivial, trivial, trivial, ?_⟩
      simp [dict_set]
    · have htl_cons : scenario_times n
          = ((n - 500 : ℕ) : ℚ)
            :: (List.range' (n - 500 + 1) 499).map (fun i : ℕ => (i : ℚ)) := by
        simp only [scenario_times]
        rw [show min n 500 = 500 from by omega,
          show (500 : ℕ) = 499 + 1 from rfl, List.range'_succ]
        rfl
      have htail_lt : ∀ x ∈ (List.range' (n - 500 + 1) 499).map
          (fun i : ℕ => (i : ℚ)), ((n - 500 : ℕ) : ℚ) < x := by
        intro x hx
        rw [List.mem_map] at hx
        obtain ⟨i, hi, rfl⟩ := hx
        rw [List.mem_range'_1] at hi
        have : n - 500 < i := by omega
        exact_mod_cast this
      have hhead_ne : ∀ p ∈ ((List.range' (n - 500 + 1) 499).map
            (fun i : ℕ => (i : ℚ))).map (fun t => (t, ()))
            ++ [(((n : ℕ) : ℚ), ())],
          (decide (p.1 ≠ ((n - 500 : ℕ) : ℚ))) = true := by
        intro p hp
        rcases List.mem_append.mp hp with h | h
        · rw [List.mem_map] at h
          obtain ⟨t, htmem, rfl⟩ := h
          simpa using (htail_lt t htmem).ne'
        · rw [List.mem_singleton] at h
          subst h
          have : ((n - 500 : ℕ) : ℚ) < ((n : ℕ) : ℚ) := by
            have : n - 500 < n := by omega
            exact_mod_cast this
          simpa using this.ne'
      rw [htl_cons]
      rw [show ((((n - 500 : ℕ) : ℚ)
            :: (List.range' (n - 500 + 1) 499).map (fun i : ℕ => (i : ℚ)))
            ++ [((n : ℕ) : ℚ)])
          = ((n - 500 : ℕ) : ℚ)
            :: ((List.range' (n - 500 + 1) 499).map (fun i : ℕ => (i : ℚ))
              ++ [((n : ℕ) : ℚ)]) from rfl]
      rw [show evict_loop (((n - 500 : ℕ) : ℚ)
            :: ((List.range' (n - 500 + 1) 499).map (fun i : ℕ => (i : ℚ))
              ++ [((n : ℕ) : ℚ)]))
            ((((n - 500 : ℕ) : ℚ)
              :: (List.range' (n - 500 + 1) 499).map (fun i : ℕ => (i : ℚ))).map
              (fun t => (t, ())) ++ [(((n : ℕ) : ℚ), ())])
          = ((List.range' (n - 500 + 1) 499).map (fun i : ℕ => (i : ℚ))
              ++ [((n : ℕ) : ℚ)],
            dict_erase ((((n - 500 : ℕ) : ℚ)
              :: (List.range' (n - 500 + 1) 499).map (fun i : ℕ => (i : ℚ))).map
              (fun t => (t, ())) ++ [(((n : ℕ) : ℚ), ())])
              ((n - 500 : ℕ) : ℚ)) from ?_]
      · have herase : dict_erase ((((n - 500 : ℕ) : ℚ)
            :: (List.range' (n - 500 + 1) 499).map (fun i : ℕ => (i : ℚ))).map
            (fun t => (t, ())) ++ [(((n : ℕ) : ℚ), ())])
            ((n - 500 : ℕ) : ℚ)
            = ((List.range' (n - 500 + 1) 499).map (fun i : ℕ => (i : ℚ))).map
              (fun t => (t, ())) ++ [(((n : ℕ) : ℚ), ())] := by
          simp only [dict_erase, List.map_cons, List.cons_append,
            List.filter_cons]
          rw [if_neg (by simp)]
          exact List.filter_eq_self.mpr hhead_ne
        rw [herase]
        have htl_succ : scenario_times (n + 1)
            = (List.range' (n - 500 + 1) 499).map (fun i : ℕ => (i : ℚ))
              ++ [((n : ℕ) : ℚ)] := by
          simp only [scenario_times]
          rw [show min (n + 1) 500 = 500 from by omega,
            show n + 1 - 500 = n - 500 + 1 from by omega,
            show (500 : ℕ) = 499 + 1 from rfl, List.range'_1_concat,
            show n - 500 + 1 + 499 = n from by omega, List.map_append]
          rfl
        rw [scenario_state, if_neg (Nat.succ_ne_zero n)]
        simp only [scenario_series, htl_succ, Nat.add_sub_cancel,
          List.map_append, Prod.mk.injEq, TMState.mk.injEq]
        refine ⟨trivial, trivial, trivial, ?_⟩
        simp [dict_set]
      · have hlen1 : (((n - 500 : ℕ) : ℚ)
            :: ((List.range' (n - 500 + 1) 499).map (fun i : ℕ => (i : ℚ))
              ++ [((n : ℕ) : ℚ)])).length = 501 := by
          simp [List.length_range']
        rw [evict_loop, if_pos (by rw [hlen1]; omega)]
        exact evict_loop_of_le _ _ (by simp [List.length_range'])

theorem scenario_times_501 :
    scenario_times 501 = (List.range' 1 500).map (fun i : ℕ => (i : ℚ)) := by
  simp only [scenario_times]
  rw [show min 501 500 = 500 from by norm_num,
    show 501 - 500 = 1 from by norm_num]

theorem capture_many_scenario (s : String) (e : ℤ) :
    ∀ n : ℕ, capture_many Unit s e
        ((List.range n).map (fun i : ℕ => ((i : ℚ), ()))) (init_state Unit)
      = (true, scenario_state s e n) := by
  intro n
  induction n with
  | zero =>
    simp [capture_many, scenario_state]
  | succ n ih =>
    rw [List.range_succ, List.map_append]
    simp only [capture_many] at ih ⊢
    rw [List.foldl_append, ih]
    simp only [List.map_cons, List.map_nil, List.foldl_cons, List.foldl_nil]
    rw [scenario_step]
    simp

/-- C6: every capture preserves the SnapshotSeries invariant — strictly
increasing timestamps, no dangling keys (every listed timestamp has a stored
entry), and a size cap of 500 with oldest-first (FIFO) eviction — and after
501 accepted captures at times 0, 1, ..., 500 with cap 500, the series holds
exactly the most recent 500 timestamps 1, ..., 500 in ascending order, each
with its stored snapshot. -/
theorem C6_snapshot_series_invariant_and_fifo (α : Type) (st : TMState α)
    (now : ℚ) (symbol : String) (e : ℤ) (snap : α) (hinv : state_inv st) :
    state_inv (capture_snapshot α st now symbol e snap).2 ∧
    (capture_many Unit "NIFTY" 0
      ((List.range 501).map (fun i : ℕ => ((i : ℚ), ())))
      (init_state Unit)).1 = true ∧
    dict_get? (capture_many Unit "NIFTY" 0
        ((List.range 501).map (fun i : ℕ => ((i : ℚ), ())))
        (init_state Unit)).2.snapshots_by_config (get_config_key "NIFTY" 0)
      = some ⟨(List.range' 1 500).map (fun i : ℕ => (i : ℚ)),
          ((List.range' 1 500).map (fun i : ℕ => (i : ℚ))).map
            (fun t => (t, ()))⟩ ∧
    ((List.range' 1 500).map (fun i : ℕ => (i : ℚ))).length = 500 ∧
    ((List.range' 1 500).map (fun i : ℕ => (i : ℚ))).Sorted (· < ·) := by
  refine ⟨capture_preserves_inv α st now symbol e snap hinv, ?_, ?_, ?_, ?_⟩
  · rw [capture_many_scenario]
  · rw [capture_many_scenario]
    rw [show scenario_state "NIFTY" 0 501 =
        { last_capture_time := some ((500 : ℕ) : ℚ)
          capture_interval := 0
          force_capture := false
          snapshots_by_config :=
            [(get_config_key "NIFTY" 0,
              ⟨(List.range' 1 500).map (fun i : ℕ => (i : ℚ)),
                ((List.range' 1 500).map (fun i : ℕ => (i : ℚ))).map
                  (fun t => (t, ()))⟩)] } from by
      rw [scenario_state, if_neg (by norm_num)]
      simp only [scenario_series, scenario_times_501]]
    simp [dict_get?]
  · simp [List.length_map, List.length_range']
  · rw [← scenario_times_501]
    exact scenario_times_sorted 501

/-- Witness for C6 at a concrete input: the empty initial state satisfies the
invariant, the capture at time 0 on it preserves it, and the 501-capture
scenario's accepted flag is concretely true. -/
theorem C6_snapshot_series_invariant_and_fifo_witness :
    state_inv (capture_snapshot Unit (init_state Unit) 0 "NIFTY" 0 ()).2 ∧
    (capture_many Unit "NIFTY" 0
      ((List.range 501).map (fun i : ℕ => ((i : ℚ), ())))
      (init_state Unit)).1 = true := by
  have h := C6_snapshot_series_invariant_and_fifo Unit (init_state Unit) 0
    "NIFTY" 0 ()
    (by intro k s hks
        simp [init_state, dict_get?] at hks)
  exact ⟨h.1, h.2.1⟩

theorem hedging_pressures_length (gex : List ℚ) :
    (hedging_pressures gex).length = gex.length := by
  unfold hedging_pressures
  split <;> rw [List.length_map]

theorem generate_demo_data_table_length (bs : BSKernel) (rand : DemoRand)
    (symbol : String) (strikes_range : ℕ) :
    (generate_demo_data bs rand symbol strikes_range).table.length
      = 2 * strikes_range + 1 := by
  simp [generate_demo_data, List.length_insertionSort]

theorem generate_demo_data_pressures_length (bs : BSKernel)
    (rand : DemoRand) (symbol : String) (strikes_range : ℕ) :
    (generate_demo_data bs rand symbol strikes_range).pressures.length
      = 2 * strikes_range + 1 := by
  simp [generate_demo_data, hedging_pressures_length,
    List.length_insertionSort]

/-- C1: the pipeline's failure conditions — session-initialization failure,
option-chain fetch failure, an exception inside the processing body, and an
empty filtered strike set — all land on the synthetic generator, whose
snapshot is complete (a full per-strike table with 2·range+1 strikes and one
hedging-pressure value per row, a reference price, a fetch-method label and
ATM info) and tagged "Demo Data", a label distinct from every live source
label; and every run returns a complete snapshot (one pressure per table
row, all fields populated by construction of `PipelineResult`). -/
theorem C1_pipeline_fallback_and_tagging (bs : BSKernel) (env : PipelineEnv)
    (symbol : String) (strikes_range expiry_index : ℕ) :
    (env.session_ok = false ∨ env.chain = none ∨ env.exc = true →
      fetch_and_calculate_gex_dex bs env symbol strikes_range expiry_index
        = generate_demo_data bs env.rand symbol strikes_range) ∧
    (∀ records, env.chain = some records →
      (pipeline_scan bs records
          (resolve_futures env.expQ env.groww symbol records
            records.underlyingValue
            (calculate_time_to_expiry env.parse_days
              (selected_expiry_of records expiry_index)).2
            risk_free_rate (selected_expiry_of records expiry_index)).1
          symbol strikes_range expiry_index
          (calculate_time_to_expiry env.parse_days
            (selected_expiry_of records expiry_index)).1).all_strikes = [] →
      fetch_and_calculate_gex_dex bs env symbol strikes_range expiry_index
        = generate_demo_data bs env.rand symbol strikes_range) ∧
    (generate_demo_data bs env.rand symbol strikes_range).fetch_method
      = "Demo Data" ∧
    (generate_demo_data bs env.rand symbol strikes_range).table.length
      = 2 * strikes_range + 1 ∧
    (generate_demo_data bs env.rand symbol strikes_range).pressures.length
      = 2 * strikes_range + 1 ∧
    (fetch_and_calculate_gex_dex bs env symbol strikes_range
        expiry_index).pressures.length
      = (fetch_and_calculate_gex_dex bs env symbol strikes_range
        expiry_index).table.length ∧
    ("Demo Data" ≠ "Groww API" ∧ "Demo Data" ≠ "Groww Page" ∧
     "Demo Data" ≠ "Groww Contract" ∧ "Demo Data" ≠ "Put-Call Parity" ∧
     "Demo Data" ≠ "Cost of Carry" ∧ "Demo Data" ≠ "Groww fetch failed") :=
  by
  refine ⟨?_, ?_, rfl, generate_demo_data_table_length bs env.rand symbol
    strikes_range, generate_demo_data_pressures_length bs env.rand symbol
    strikes_range, ?_, by decide⟩
  · intro h
    rcases h with h | h | h
    · simp [fetch_and_calculate_gex_dex, h]
    · cases hs : env.session_ok
      · simp [fetch_and_calculate_gex_dex, hs]
      · simp [fetch_and_calculate_gex_dex, hs, h]
    · cases hs : env.session_ok
      · simp [fetch_and_calculate_gex_dex, hs]
      · cases hc : env.chain with
        | none => simp [fetch_and_calculate_gex_dex, hs, hc]
        | some records => simp [fetch_and_calculate_gex_dex, hs, hc, h]
  · intro records hrec hscan
    cases hs : env.session_ok
    · simp [fetch_and_calculate_gex_dex, hs]
    · cases he : env.exc
      · by_cases hvalid : records.expiryDates = []
            ∨ records.underlyingValue = 0
        · simp [fetch_and_calculate_gex_dex, hs, hrec, he, hvalid]
        · simp [fetch_and_calculate_gex_dex, hs, hrec, he, hvalid, hscan]
      · simp [fetch_and_calculate_gex_dex, hs, hrec, he]
  · cases hs : env.session_ok
    · simp [fetch_and_calculate_gex_dex, hs,
        generate_demo_data_pressures_length,
        generate_demo_data_table_length]
    · cases hc : env.chain with
      | none =>
        simp [fetch_and_calculate_gex_dex, hs, hc,
          generate_demo_data_pressures_length,
          generate_demo_data_table_length]
      | some records =>
        cases he : env.exc
        · by_cases hvalid : records.expiryDates = []
              ∨ records.underlyingValue = 0
          · simp [fetch_and_calculate_gex_dex, hs, hc, he, hvalid,
              generate_demo_data_pressures_length,
              generate_demo_data_table_length]
          · by_cases hscan : (pipeline_scan bs records
                (resolve_futures env.expQ env.groww symbol records
                  records.underlyingValue
                  (calculate_time_to_expiry env.parse_days
                    (selected_expiry_of records expiry_index)).2
                  risk_free_rate
                  (selected_expiry_of records expiry_index)).1
                symbol strikes_range expiry_index
                (calculate_time_to_expiry env.parse_days
                  (selected_expiry_of records
                    expiry_index)).1).all_strikes = []
            · simp [fetch_and_calculate_gex_dex, hs, hc, he, hvalid, hscan,
                generate_demo_data_pressures_length,
                generate_demo_data_table_length]
            · simp [fetch_and_calculate_gex_dex, hs, hc, he, hvalid, hscan,
                hedging_pressures_length]
        · simp [fetch_and_calculate_gex_dex, hs, hc, he,
            generate_demo_data_pressures_length,
            generate_demo_data_table_length]

/-- Witness for C1 at a concrete failing environment (`env0`: NSE session
initialization failed): the run falls back to the synthetic generator, the
snapshot is tagged "Demo Data" and holds 2·3+1 = 7 strikes. -/
theorem C1_pipeline_fallback_and_tagging_witness :
    fetch_and_calculate_gex_dex bs0 env0 "NIFTY" 3 0
      = generate_demo_data bs0 env0.rand "NIFTY" 3 ∧
    (generate_demo_data bs0 env0.rand "NIFTY" 3).fetch_method
      = "Demo Data" ∧
    (generate_demo_data bs0 env0.rand "NIFTY" 3).table.length = 7 := by
  have h := C1_pipeline_fallback_and_tagging bs0 env0 "NIFTY" 3 0
  exact ⟨h.1 (Or.inl rfl), h.2.2.1, h.2.2.2.1⟩

end NyzGex
